import Mathlib

/-!
# Verification of the endowment reference-data store (src/app.py)

A shallow embedding of the core of `src/app.py`: the calendar month-end
enumeration `_month_ends`, the synthetic data generator `seed_sample_data`,
the spreadsheet importer `import_from_excel` (with its helpers
`parse_date`, `parse_decimal`, `_get_or_create`), and the template
generator `make_template_xlsx`.

Modelling conventions:
* Python floats are modelled as exact rationals (`Rat`); the single
  irrational constant `12 ** -0.5` is modelled by a fixed rational
  stand-in (`sqrt12inv`), whose exact value is irrelevant to every claim.
* A possibly-NaN float is modelled by `Flt` (`fin q` or `nan`), because
  Python's `float()` can produce a NaN that sqlite then binds as NULL.
* The random source `random.Random(seed)` / `rng.gauss` is modelled by an
  abstract generator type `G` with `init : Nat → G` and
  `gauss : G → Rat → Rat → Rat × G`, threaded through the generator in
  exactly the order the code consumes draws.
* sqlite tables are modelled as lists of rows in insertion (rowid) order;
  `INSERT OR IGNORE` / `INSERT OR REPLACE` / plain `INSERT` are modelled on
  the natural key of each table; `INSERT OR REPLACE` deletes the
  conflicting row and appends the new one (new rowid), matching sqlite.
* Spreadsheet cells are modelled by `Cell`, which carries the outcomes of
  the Python primitives applied to the underlying value
  (`pd.isna`, `str`, `.strip`, `float`, `int`, `pd.to_datetime`,
  truthiness) as oracle fields; the importer's control flow is translated
  against those fields.
-/

/-- A calendar date, mirroring `datetime.date` fields. -/
structure Date where
  y : Nat
  m : Nat
  d : Nat
deriving DecidableEq, Repr

/-- Strict lexicographic order on dates (year, then month, then day),
mirroring `datetime.date` comparison. -/
def Date.lt (a b : Date) : Prop :=
  a.y < b.y ∨ (a.y = b.y ∧ (a.m < b.m ∨ (a.m = b.m ∧ a.d < b.d)))

/-- Non-strict date order. -/
def Date.le (a b : Date) : Prop := Date.lt a b ∨ a = b

instance (a b : Date) : Decidable (Date.lt a b) := by
  unfold Date.lt; infer_instance

instance (a b : Date) : Decidable (Date.le a b) := by
  unfold Date.le; infer_instance

/-- Gregorian leap-year rule, as used by `calendar.monthrange`. -/
def isLeapYear (y : Nat) : Bool :=
  (y % 4 = 0 && !(y % 100 = 0)) || y % 400 = 0

/-- `calendar.monthrange(y, m)[1]`: the number of days of month `m` of
year `y` (meaningful for `1 ≤ m ≤ 12`). -/
def daysInMonth (y m : Nat) : Nat :=
  if m = 2 then (if isLeapYear y then 29 else 28)
  else if m = 4 ∨ m = 6 ∨ m = 9 ∨ m = 11 then 30
  else 31

/-- Left-pad a numeral to two digits, as in ISO month/day rendering. -/
def pad2 (n : Nat) : String :=
  if n < 10 then "0" ++ toString n else toString n

/-- Left-pad a numeral to four digits, as in ISO year rendering. -/
def pad4 (n : Nat) : String :=
  if n < 10 then "000" ++ toString n
  else if n < 100 then "00" ++ toString n
  else if n < 1000 then "0" ++ toString n
  else toString n

/-- `datetime.date.isoformat()`: render a date as `YYYY-MM-DD`. -/
def Date.iso (x : Date) : String :=
  pad4 x.y ++ "-" ++ pad2 x.m ++ "-" ++ pad2 x.d

/-- The loop body of `_month_ends` (src/app.py lines 122-136).  The `fuel`
argument is only a termination bound: `monthEnds` below supplies enough
fuel that the recursion is always stopped by the loop guard
`(y, m) <= (end.year, end.month)`, never by fuel exhaustion (made precise
by `monthEndsAux_closed_form`). -/
def monthEndsAux : Nat → Nat → Nat → Nat → Nat → List Date
  | 0, _, _, _, _ => []
  | fuel + 1, y, m, ey, em =>
    if y < ey ∨ (y = ey ∧ m ≤ em) then
      ⟨y, m, daysInMonth y m⟩ ::
        (if m = 12 then monthEndsAux fuel (y + 1) 1 ey em
         else monthEndsAux fuel y (m + 1) ey em)
    else []

/-- `_month_ends(start, end)`: yield month-end dates from the month of
`start` to the month of `end` inclusive. -/
def monthEnds (s e : Date) : List Date :=
  monthEndsAux (e.y * 12 + e.m + 1 - (s.y * 12 + s.m)) s.y s.m e.y e.m

/-- The month-end date of the `t`-th calendar month (months counted from
year 0, `t = y * 12 + (m - 1)`). -/
def monthEndAt (t : Nat) : Date :=
  ⟨t / 12, t % 12 + 1, daysInMonth (t / 12) (t % 12 + 1)⟩

theorem monthEndAt_eq (y m : Nat) (h1 : 1 ≤ m) (h2 : m ≤ 12) :
    monthEndAt (y * 12 + m - 1) = ⟨y, m, daysInMonth y m⟩ := by
  have hy : (y * 12 + m - 1) / 12 = y := by omega
  have hm : (y * 12 + m - 1) % 12 + 1 = m := by omega
  unfold monthEndAt
  rw [hy, hm]

theorem monthEndsAux_closed_form :
    ∀ (fuel y m ey em : Nat), 1 ≤ m → m ≤ 12 → 1 ≤ em → em ≤ 12 →
    ey * 12 + em + 1 - (y * 12 + m) ≤ fuel →
    monthEndsAux fuel y m ey em =
      (List.range (ey * 12 + em + 1 - (y * 12 + m))).map
        (fun i => monthEndAt (y * 12 + m - 1 + i)) := by
  intro fuel
  induction fuel with
  | zero =>
    intro y m ey em h1 h2 h3 h4 hf
    have hz : ey * 12 + em + 1 - (y * 12 + m) = 0 := by omega
    rw [hz]
    have : ¬ (y < ey ∨ (y = ey ∧ m ≤ em)) := by omega
    simp [monthEndsAux, this]
  | succ fuel ih =>
    intro y m ey em h1 h2 h3 h4 hf
    by_cases hg : y < ey ∨ (y = ey ∧ m ≤ em)
    · have hcnt : ey * 12 + em + 1 - (y * 12 + m) =
        (ey * 12 + em + 1 - (y * 12 + m) - 1) + 1 := by omega
      rw [monthEndsAux, if_pos hg, hcnt, List.range_succ_eq_map]
      by_cases hm12 : m = 12
      · subst hm12
        rw [if_pos rfl, ih (y + 1) 1 ey em (by omega) (by omega) h3 h4 (by omega)]
        have hc2 : ey * 12 + em + 1 - ((y + 1) * 12 + 1) =
            ey * 12 + em + 1 - (y * 12 + 12) - 1 := by omega
        rw [hc2]
        simp only [List.map_cons, List.map_map, List.cons.injEq]
        constructor
        · rw [show y * 12 + 12 - 1 + 0 = y * 12 + 12 - 1 by omega,
            monthEndAt_eq y 12 (by omega) (by omega)]
        · apply List.map_congr_left
          intro i _
          simp only [Function.comp_apply]
          congr 1
          omega
      · rw [if_neg hm12, ih y (m + 1) ey em (by omega) (by omega) h3 h4 (by omega)]
        have hc2 : ey * 12 + em + 1 - (y * 12 + (m + 1)) =
            ey * 12 + em + 1 - (y * 12 + m) - 1 := by omega
        rw [hc2]
        simp only [List.map_cons, List.map_map, List.cons.injEq]
        constructor
        · rw [show y * 12 + m - 1 + 0 = y * 12 + m - 1 by omega,
            monthEndAt_eq y m h1 h2]
        · apply List.map_congr_left
          intro i _
          simp only [Function.comp_apply]
          congr 1
          omega
    · have hz : ey * 12 + em + 1 - (y * 12 + m) = 0 := by omega
      rw [monthEndsAux, if_neg hg, hz]
      simp

theorem monthEnds_closed_form (s e : Date)
    (h1 : 1 ≤ s.m) (h2 : s.m ≤ 12) (h3 : 1 ≤ e.m) (h4 : e.m ≤ 12) :
    monthEnds s e =
      (List.range (e.y * 12 + e.m + 1 - (s.y * 12 + s.m))).map
        (fun i => monthEndAt (s.y * 12 + s.m - 1 + i)) :=
  monthEndsAux_closed_form _ s.y s.m e.y e.m h1 h2 h3 h4 le_rfl

section TableOps

variable {ρ κ : Type} [DecidableEq κ]

/-- Does table `t` contain a row whose natural key is `k`? -/
def keyMem (key : ρ → κ) (k : κ) (t : List ρ) : Bool :=
  t.any (fun x => decide (key x = k))

/-- One `INSERT OR REPLACE`: sqlite deletes any row carrying the same
natural key and inserts the new row with a fresh rowid (so it comes last
in rowid order). -/
def orReplace1 (key : ρ → κ) (t : List ρ) (r : ρ) : List ρ :=
  t.filter (fun x => !decide (key x = key r)) ++ [r]

/-- `executemany` of `INSERT OR REPLACE` over `rows`, in order. -/
def orReplaceAll (key : ρ → κ) (t rows : List ρ) : List ρ :=
  rows.foldl (orReplace1 key) t

/-- One `INSERT OR IGNORE`: sqlite drops the insert when a row with the
same natural key already exists. -/
def orIgnore1 (key : ρ → κ) (t : List ρ) (r : ρ) : List ρ :=
  if keyMem key (key r) t then t else t ++ [r]

/-- `executemany` of `INSERT OR IGNORE` over `rows`, in order. -/
def orIgnoreAll (key : ρ → κ) (t rows : List ρ) : List ρ :=
  rows.foldl (orIgnore1 key) t

/-- Keep, for each natural key, only the last row of `rows` carrying it
(the survivor of a sequence of `INSERT OR REPLACE`). -/
def dedupLast (key : ρ → κ) : List ρ → List ρ
  | [] => []
  | r :: rs =>
    if keyMem key (key r) rs then dedupLast key rs
    else r :: dedupLast key rs

theorem keyMem_cons (key : ρ → κ) (k : κ) (r : ρ) (rs : List ρ) :
    keyMem key k (r :: rs) = (decide (key r = k) || keyMem key k rs) := by
  simp [keyMem]

theorem orReplaceAll_closed (key : ρ → κ) (rows : List ρ) :
    ∀ t, orReplaceAll key t rows =
      t.filter (fun x => !keyMem key (key x) rows) ++ dedupLast key rows := by
  induction rows with
  | nil => intro t; simp [orReplaceAll, dedupLast, keyMem]
  | cons r rs ih =>
    intro t
    show orReplaceAll key (orReplace1 key t r) rs = _
    rw [ih]
    unfold orReplace1
    rw [List.filter_append, List.filter_filter]
    have hfc : ∀ x ∈ t,
        (!keyMem key (key x) rs && !decide (key x = key r)) =
          !keyMem key (key x) (r :: rs) := by
      intro x _
      rw [keyMem_cons]
      by_cases h1 : key r = key x
      · simp [h1]
      · have h2 : ¬ key x = key r := fun hh => h1 hh.symm
        simp [h1, h2]
    rw [List.filter_congr hfc]
    by_cases h : keyMem key (key r) rs
    · have hd : dedupLast key (r :: rs) = dedupLast key rs := by
        simp [dedupLast, h]
      have hr : [r].filter (fun x => !keyMem key (key x) rs) = [] := by
        simp [h]
      rw [hd, hr, List.append_nil]
    · have hd : dedupLast key (r :: rs) = r :: dedupLast key rs := by
        simp [dedupLast, h]
      have hr : [r].filter (fun x => !keyMem key (key x) rs) = [r] := by
        simp [h]
      rw [hd, hr, List.append_assoc]
      rfl

theorem keyMem_of_mem_dedupLast (key : ρ → κ) (rows : List ρ) (x : ρ)
    (hx : x ∈ dedupLast key rows) : keyMem key (key x) rows = true := by
  induction rows with
  | nil => simp [dedupLast] at hx
  | cons r rs ih =>
    rw [keyMem_cons]
    by_cases h : keyMem key (key r) rs
    · simp only [dedupLast, h, if_true] at hx
      rw [ih hx]
      simp
    · simp only [dedupLast, h, if_false] at hx
      rcases List.mem_cons.mp hx with h1 | h2
      · subst h1; simp
      · rw [ih h2]; simp

/-- Replaying the same `INSERT OR REPLACE` batch leaves the table
unchanged. -/
theorem orReplaceAll_idem (key : ρ → κ) (t rows : List ρ) :
    orReplaceAll key (orReplaceAll key t rows) rows =
      orReplaceAll key t rows := by
  rw [orReplaceAll_closed, orReplaceAll_closed]
  rw [List.filter_append, List.filter_filter]
  have h1 : (dedupLast key rows).filter
      (fun x => !keyMem key (key x) rows) = [] := by
    rw [List.filter_eq_nil_iff]
    intro a ha
    rw [keyMem_of_mem_dedupLast key rows a ha]
    simp
  rw [h1, List.append_nil]
  congr 1
  apply List.filter_congr
  intro x _
  by_cases h : keyMem key (key x) rows <;> simp [h]

theorem keyMem_orIgnore1_mono (key : ρ → κ) (k : κ) (t : List ρ) (r : ρ)
    (h : keyMem key k t = true) : keyMem key k (orIgnore1 key t r) = true := by
  unfold orIgnore1
  split
  · exact h
  · simp only [keyMem, List.any_append]
    rw [show t.any (fun x => decide (key x = k)) = true from h]
    simp

theorem keyMem_orIgnoreAll_mono (key : ρ → κ) (k : κ) (rows : List ρ) :
    ∀ t, keyMem key k t = true → keyMem key k (orIgnoreAll key t rows) = true := by
  induction rows with
  | nil => intro t h; exact h
  | cons r rs ih =>
    intro t h
    exact ih (orIgnore1 key t r) (keyMem_orIgnore1_mono key k t r h)

theorem keyMem_orIgnore1_self (key : ρ → κ) (t : List ρ) (r : ρ) :
    keyMem key (key r) (orIgnore1 key t r) = true := by
  unfold orIgnore1
  split
  · assumption
  · simp [keyMem]

theorem keyMem_orIgnoreAll_of_mem (key : ρ → κ) (rows : List ρ) (r : ρ)
    (hr : r ∈ rows) : ∀ t, keyMem key (key r) (orIgnoreAll key t rows) = true := by
  induction rows with
  | nil => cases hr
  | cons a as ih =>
    intro t
    rcases List.mem_cons.mp hr with h1 | h2
    · subst h1
      exact keyMem_orIgnoreAll_mono key (key r) as _
        (keyMem_orIgnore1_self key t r)
    · exact ih h2 _

theorem orIgnoreAll_noop (key : ρ → κ) (rows : List ρ) :
    ∀ t, (∀ r ∈ rows, keyMem key (key r) t = true) →
      orIgnoreAll key t rows = t := by
  induction rows with
  | nil => intro t _; rfl
  | cons a as ih =>
    intro t h
    show orIgnoreAll key (orIgnore1 key t a) as = t
    have ha : orIgnore1 key t a = t := by
      unfold orIgnore1
      rw [h a (List.mem_cons_self a as)]
      rfl
    rw [ha]
    exact ih t (fun r hr => h r (List.mem_cons_of_mem a hr))

/-- Replaying the same `INSERT OR IGNORE` batch leaves the table
unchanged. -/
theorem orIgnoreAll_idem (key : ρ → κ) (t rows : List ρ) :
    orIgnoreAll key (orIgnoreAll key t rows) rows =
      orIgnoreAll key t rows :=
  orIgnoreAll_noop key rows _
    (fun r hr => keyMem_orIgnoreAll_of_mem key rows r hr t)

end TableOps

/-- A fold is unchanged by first dropping the elements on which the step
function is the identity. -/
theorem foldl_filter_skip {σ α : Type} (step : σ → α → σ) (p : α → Bool)
    (h : ∀ s a, p a = false → step s a = s) :
    ∀ (l : List α) (s : σ), (l.filter p).foldl step s = l.foldl step s := by
  intro l
  induction l with
  | nil => intro s; rfl
  | cons a as ih =>
    intro s
    by_cases hp : p a = true
    · simp only [List.filter_cons, hp, if_true, List.foldl_cons]
      exact ih (step s a)
    · have hp2 : p a = false := by
        cases hq : p a
        · rfl
        · exact absurd hq hp
      simp only [List.filter_cons, hp2, Bool.false_eq_true, if_false,
        List.foldl_cons, h s a hp2]
      exact ih s

/-- A `filterMap` is unchanged by first dropping the elements it maps to
`none`. -/
theorem filterMap_filter_isSome {α β : Type} (f : α → Option β) :
    ∀ l : List α, (l.filter (fun a => (f a).isSome)).filterMap f =
      l.filterMap f := by
  intro l
  induction l with
  | nil => rfl
  | cons a as ih =>
    cases hf : f a with
    | none =>
      simp only [List.filter_cons, List.filterMap_cons, hf]
      simp only [Option.isSome_none, Bool.false_eq_true, if_false]
      exact ih
    | some b =>
      simp only [List.filter_cons, hf, Option.isSome_some, if_true,
        List.filterMap_cons]
      exact congrArg (List.cons b) ih

/-- Python `str.strip()` on the whitespace characters, implemented
structurally over the character list so that it reduces in the kernel
(core `String.trim` is built on well-founded `Substring` recursion,
which does not). -/
def pyStrip (s : String) : String :=
  String.mk
    (((s.data.dropWhile Char.isWhitespace).reverse.dropWhile
        Char.isWhitespace).reverse)

/-- Python `str.endswith('%')`, implemented structurally. -/
def endsWithPct (s : String) : Bool :=
  match s.data.getLast? with
  | some c => decide (c = Char.ofNat 37)
  | none => false

/-- A Python float as sqlite sees it: a finite value or NaN.  (Python
`float()` can return NaN, e.g. from a blank pandas cell or the string
"nan"; the sqlite3 driver then binds NaN as NULL.) -/
inductive Flt where
  | fin (q : Rat)
  | nan
deriving DecidableEq, Repr

/-- Division by 100 (`/ 100.0`); NaN propagates. -/
def Flt.div100 : Flt → Flt
  | fin q => fin (q / 100)
  | nan => nan

/-- The percent heuristic test `v > 1.0 and v <= 100.0` of
`parse_decimal`; every comparison with NaN is false in Python. -/
def Flt.isPctRange : Flt → Bool
  | fin q => decide (1 < q ∧ q ≤ 100)
  | nan => false

/-- Python truthiness of a float: `bool(0.0)` is False, `bool(nan)` is
True. -/
def Flt.pyTruthy : Flt → Bool
  | fin q => decide (q ≠ 0)
  | nan => true

/-- Binding a float into a `REAL NOT NULL` column: sqlite3 binds NaN as
NULL, which the NOT NULL constraint then rejects. -/
def Flt.bindReal : Flt → Option Rat
  | fin q => some q
  | nan => none

/-- A spreadsheet cell as the importer sees it after `pd.read_excel`.
The fields record the outcomes of the Python primitives the importer
applies to the cell value: they are fixed per value, so the importer's
control flow is a function of them.
* `isna`     — `pd.isna(val)`
* `isStr`    — `isinstance(val, str)`
* `strVal`   — `str(val)` (for a NaN cell this is the string "nan")
* `stripped` — `val.strip()` (meaningful when `isStr`)
* `floatVal` — `float(val)` (`none` when it raises)
* `pctFloat` — `float(val.strip()[:-1])` (`none` when it raises;
  meaningful when `stripped` ends with a percent sign)
* `intVal`   — `int(val)` (`none` when it raises)
* `dateVal`  — `pd.to_datetime(val).date().isoformat()` (`none` when it
  raises)
* `truthy`   — `bool(val)` -/
structure Cell where
  isna : Bool
  isStr : Bool
  strVal : String
  stripped : String
  floatVal : Option Flt
  pctFloat : Option Flt
  intVal : Option Int
  dateVal : Option String
  truthy : Bool
deriving DecidableEq, Repr

/-- A sheet row: the cells present in the row's columns.  (A column of the
sheet is a key of every row of that sheet.) -/
abbrev Row := List (String × Cell)

/-- A workbook: named sheets in file order, as `xls.sheet_names` exposes
them. -/
abbrev Workbook := List (String × List Row)

/-- `r.get(col)` on a pandas row: `none` when the column is absent. -/
def Row.getCell (r : Row) (c : String) : Option Cell :=
  (r.find? (fun p => decide (p.1 = c))).map (fun p => p.2)

/-- `str(r.get(col, dflt))`: the Python str of the cell value, or of the
default when the column is absent. -/
def rowStr (r : Row) (c : String) (dflt : String) : String :=
  match r.getCell c with
  | none => dflt
  | some cl => cl.strVal

/-- `parse_date` (src/app.py lines 357-364) applied to `r.get(col)`:
empty string for NaN/empty input, the normalized ISO date when
`pd.to_datetime` succeeds, otherwise `str(val)` verbatim. -/
def parseDate (c : Option Cell) : String :=
  match c with
  | none => ""
  | some c =>
    if c.isna || (c.isStr && decide (c.strVal = "")) then ""
    else
      match c.dateVal with
      | some d => d
      | none => c.strVal

/-- `parse_decimal` (src/app.py lines 366-381) applied to `r.get(col)`:
`none` for NaN/empty/unparseable input; a string with a trailing percent
sign is divided by 100; a bare value in (1, 100] is treated as a percent
and divided by 100; every other value passes through. -/
def parseDecimal (c : Option Cell) : Option Flt :=
  match c with
  | none => none
  | some c =>
    if c.isna || (c.isStr && decide (c.strVal = "")) then none
    else if c.isStr && endsWithPct c.stripped then
      match c.pctFloat with
      | some v => some v.div100
      | none => none
    else
      match c.floatVal with
      | none => none
      | some v => if v.isPctRange then some v.div100 else some v

/-- The eight domain tables of the schema (src/app.py lines 20-119),
each as its rows in rowid order.
* `assetClasses`      — (asset_class_id, name); name UNIQUE
* `benchmarks`        — (benchmark_id, name, ticker); name UNIQUE
* `funds`             — (fund_id, name, asset_class_id, benchmark_id);
  name UNIQUE
* `returns`           — (asof, fund_id, monthly_return);
  PRIMARY KEY (asof, fund_id)
* `contributions`     — (asof, amount, source); autoincrement
  contribution_id is implicit in the list position, no natural key
* `targetAllocations` — (asof, asset_class_id, weight);
  UNIQUE (asof, asset_class_id)
* `spendingPolicy`    — (policy_id, name, rate, smoothing_years);
  name UNIQUE
* `inflation`         — (asof, cpi_index); asof PRIMARY KEY -/
structure Store where
  assetClasses : List (Nat × String)
  benchmarks : List (Nat × String × Option String)
  funds : List (Nat × String × Nat × Option Nat)
  returns : List (String × Nat × Rat)
  contributions : List (String × Rat × Option String)
  targetAllocations : List (String × Nat × Rat)
  spendingPolicy : List (Nat × String × Rat × Int)
  inflation : List (String × Rat)
deriving DecidableEq, Repr

/-- A freshly initialized store: `ensure_schema` has created the tables,
none holds a row. -/
def emptyStore : Store := ⟨[], [], [], [], [], [], [], []⟩

/-- The rowid sqlite assigns to a fresh insert into an
INTEGER PRIMARY KEY table: one more than the largest existing id. -/
def nextId (ids : List Nat) : Nat := ids.foldl max 0 + 1

/-- Natural key of a `returns` row: (asof, fund_id). -/
def returnsKey : String × Nat × Rat → String × Nat := fun x => (x.1, x.2.1)

/-- Natural key of a `target_allocations` row: (asof, asset_class_id). -/
def taKey : String × Nat × Rat → String × Nat := fun x => (x.1, x.2.1)

/-- Natural key of an `inflation` row: asof. -/
def inflationKey : String × Rat → String := fun x => x.1

/-- `INSERT OR IGNORE INTO asset_classes(name)`. -/
def insertAssetClassIgnore (s : Store) (n : String) : Store :=
  if s.assetClasses.any (fun p => decide (p.2 = n)) then s
  else { s with assetClasses :=
    s.assetClasses ++ [(nextId (s.assetClasses.map Prod.fst), n)] }

/-- `INSERT OR IGNORE INTO benchmarks(name, ticker)`. -/
def insertBenchmarkIgnore (s : Store) (n : String) (tk : Option String) : Store :=
  if s.benchmarks.any (fun p => decide (p.2.1 = n)) then s
  else { s with benchmarks :=
    s.benchmarks ++ [(nextId (s.benchmarks.map Prod.fst), n, tk)] }

/-- `INSERT OR IGNORE INTO funds(name, asset_class_id, benchmark_id)`. -/
def insertFundIgnore (s : Store) (n : String) (ac : Nat) (bm : Option Nat) : Store :=
  if s.funds.any (fun p => decide (p.2.1 = n)) then s
  else { s with funds :=
    s.funds ++ [(nextId (s.funds.map Prod.fst), n, ac, bm)] }

/-- `INSERT OR IGNORE INTO spending_policy(name, rate, smoothing_years)`. -/
def insertSpendingIgnore (s : Store) (n : String) (rate : Rat) (sy : Int) : Store :=
  if s.spendingPolicy.any (fun p => decide (p.2.1 = n)) then s
  else { s with spendingPolicy :=
    s.spendingPolicy ++ [(nextId (s.spendingPolicy.map Prod.fst), n, rate, sy)] }

/-- `_get_or_create` (src/app.py lines 279-285) specialized to
`asset_classes`: select by name, insert when absent, return the id. -/
def getOrCreateAssetClass (s : Store) (n : String) : Nat × Store :=
  match s.assetClasses.find? (fun p => decide (p.2 = n)) with
  | some p => (p.1, s)
  | none =>
    let i := nextId (s.assetClasses.map Prod.fst)
    (i, { s with assetClasses := s.assetClasses ++ [(i, n)] })

/-- The plain `INSERT INTO benchmarks(name)` of the funds sheet (line
345): a UNIQUE-name conflict is an IntegrityError, not ignored. -/
def insertBenchmarkPlain (s : Store) (n : String) :
    Except Unit (Nat × Store) :=
  if s.benchmarks.any (fun p => decide (p.2.1 = n)) then .error ()
  else
    let i := nextId (s.benchmarks.map Prod.fst)
    .ok (i, { s with benchmarks := s.benchmarks ++ [(i, n, none)] })

/-- The name→id map over `asset_classes` (`SELECT asset_class_id, name`). -/
def acMapOf (s : Store) : List (String × Nat) :=
  s.assetClasses.map (fun p => (p.2, p.1))

/-- The name→id map over `benchmarks`. -/
def bmMapOf (s : Store) : List (String × Nat) :=
  s.benchmarks.map (fun p => (p.2.1, p.1))

/-- The name→id map over `funds`. -/
def fundMapOf (s : Store) : List (String × Nat) :=
  s.funds.map (fun p => (p.2.1, p.1))

/-- `m.get(name)` on a name→id dict. -/
def lookupName (m : List (String × Nat)) (n : String) : Option Nat :=
  (m.find? (fun p => decide (p.1 = n))).map (fun p => p.2)

/-- Lift a fallible per-row step to a fold step over `Except` state (an
exception raised by an earlier row short-circuits the rest of the loop). -/
def exStep {σ : Type} (f : σ → Row → Except Unit σ) :
    Except Unit σ → Row → Except Unit σ :=
  fun st r =>
    match st with
    | .error e => .error e
    | .ok s => f s r

/-- The asset_classes sheet loop (src/app.py lines 309-314): insert each
non-empty name, insert-if-absent. -/
def procAssetClasses (rows : List Row) (s : Store) : Store :=
  rows.foldl
    (fun s r =>
      let name := pyStrip (rowStr r "name" "")
      if name ≠ "" then insertAssetClassIgnore s name else s)
    s

/-- The benchmarks sheet loop (lines 316-323). -/
def procBenchmarks (rows : List Row) (s : Store) : Store :=
  rows.foldl
    (fun s r =>
      let name := pyStrip (rowStr r "name" "")
      let tk : Option String :=
        match r.getCell "ticker" with
        | none => none
        | some c =>
          if c.isna || (c.isStr && decide (c.strVal = "")) then none
          else some c.strVal
      if name ≠ "" then insertBenchmarkIgnore s name tk else s)
    s

/-- One row of the funds sheet (lines 333-351): skip when the fund or
asset-class name is empty; get-or-create the asset class; a non-empty
unknown benchmark name is created with a plain INSERT (which raises on a
UNIQUE conflict); finally insert-if-absent the fund. -/
def fundsStep (st : Store × List (String × Nat) × List (String × Nat))
    (r : Row) :
    Except Unit (Store × List (String × Nat) × List (String × Nat)) :=
  let (s, acm, bmm) := st
  let name := pyStrip (rowStr r "name" "")
  let acName := pyStrip (rowStr r "asset_class" "")
  let bmName := pyStrip (rowStr r "benchmark" "")
  if name = "" ∨ acName = "" then .ok (s, acm, bmm)
  else
    -- `ac_id.get(ac_name) or _get_or_create(...)`: ids are ≥ 1, so the
    -- `or` falls through exactly when the map lookup misses
    let acs : Nat × Store :=
      match lookupName acm acName with
      | some i => (i, s)
      | none => getOrCreateAssetClass s acName
    let ac := acs.1
    let s := acs.2
    let acm := (acName, ac) :: acm
    if bmName = "" then .ok (insertFundIgnore s name ac none, acm, bmm)
    else
      match lookupName bmm bmName with
      | some b => .ok (insertFundIgnore s name ac (some b), acm, bmm)
      | none =>
        match insertBenchmarkPlain s bmName with
        | .error e => .error e
        | .ok (b, s) =>
          .ok (insertFundIgnore s name ac (some b), acm, (bmName, b) :: bmm)

/-- The funds sheet loop (lines 331-351). -/
def procFunds (rows : List Row) (s : Store)
    (acm bmm : List (String × Nat)) :
    Except Unit (Store × List (String × Nat) × List (String × Nat)) :=
  rows.foldl (exStep fundsStep) (.ok (s, acm, bmm))

/-- One row of the returns sheet (lines 386-392): collected only when the
date is non-empty, the fund name resolves (to a truthy id) and the
return parses. -/
def returnsRowParse (fundMap : List (String × Nat)) (r : Row) :
    Option (String × Nat × Flt) :=
  let asof := parseDate (r.getCell "asof")
  let fundName := pyStrip (rowStr r "fund" "")
  let ret := parseDecimal (r.getCell "monthly_return")
  match lookupName fundMap fundName, ret with
  | some fid, some v =>
    if asof ≠ "" ∧ fid ≠ 0 then some (asof, fid, v) else none
  | some _, none => none
  | none, _ => none

/-- Bind one collected returns row into the `REAL NOT NULL` column. -/
def bindReturnsRow (x : String × Nat × Flt) :
    Except Unit (String × Nat × Rat) :=
  match x.2.2.bindReal with
  | some q => .ok (x.1, x.2.1, q)
  | none => .error ()

/-- The returns sheet (lines 383-394): collect rows, then
`INSERT OR REPLACE` them on (asof, fund_id). -/
def procReturns (rows : List Row) (fundMap : List (String × Nat))
    (s : Store) : Except Unit Store :=
  let collected := rows.filterMap (returnsRowParse fundMap)
  if collected.isEmpty then .ok s
  else
    match collected.mapM bindReturnsRow with
    | .error e => .error e
    | .ok rs => .ok { s with returns := orReplaceAll returnsKey s.returns rs }

/-- One row of the contributions sheet (lines 399-409). -/
def contribRowParse (r : Row) : Option (String × Flt × Option String) :=
  let asof := parseDate (r.getCell "asof")
  let amount : Option Flt :=
    match r.getCell "amount" with
    | none => none      -- float(None) raises, caught to None
    | some c => c.floatVal
  let source : Option String :=
    match r.getCell "source" with
    | none => none
    | some c =>
      if c.isna || (c.isStr && decide (c.strVal = "")) then none
      else some c.strVal
  match amount with
  | some a => if asof ≠ "" then some (asof, a, source) else none
  | none => none

/-- Bind one collected contributions row (`amount REAL NOT NULL`). -/
def bindContribRow (x : String × Flt × Option String) :
    Except Unit (String × Rat × Option String) :=
  match x.2.1.bindReal with
  | some q => .ok (x.1, q, x.2.2)
  | none => .error ()

/-- The contributions sheet (lines 396-411): plain `INSERT`, append-only. -/
def procContributions (rows : List Row) (s : Store) : Except Unit Store :=
  let collected := rows.filterMap contribRowParse
  if collected.isEmpty then .ok s
  else
    match collected.mapM bindContribRow with
    | .error e => .error e
    | .ok rs => .ok { s with contributions := s.contributions ++ rs }

/-- The collection loop of the target_allocations sheet (lines 416-424):
rows with an empty date or name or an unparseable weight are skipped; the
asset class is resolved through the map or get-or-created (mutating the
store immediately), and the map is updated. -/
def taCollect (rows : List Row)
    (acm : List (String × Nat)) (s : Store) :
    Store × List (String × Nat) × List (String × Nat × Flt) :=
  rows.foldl
    (fun st r =>
      let (s, acm, out) := st
      let asof := parseDate (r.getCell "asof")
      let acName := pyStrip (rowStr r "asset_class" "")
      let w := parseDecimal (r.getCell "weight")
      match w with
      | none => (s, acm, out)
      | some wv =>
        if asof = "" ∨ acName = "" then (s, acm, out)
        else
          let acs : Nat × Store :=
            match lookupName acm acName with
            | some i => (i, s)
            | none => getOrCreateAssetClass s acName
          (acs.2, (acName, acs.1) :: acm, out ++ [(asof, acs.1, wv)]))
    (s, acm, [])

/-- Bind one collected target_allocations row (`weight REAL NOT NULL`). -/
def bindTaRow (x : String × Nat × Flt) :
    Except Unit (String × Nat × Rat) :=
  match x.2.2.bindReal with
  | some q => .ok (x.1, x.2.1, q)
  | none => .error ()

/-- The target_allocations sheet (lines 413-426): collect (auto-creating
asset classes), then `INSERT OR REPLACE` on (asof, asset_class_id). -/
def procTargetAllocations (rows : List Row)
    (acm : List (String × Nat)) (s : Store) :
    Except Unit (Store × List (String × Nat)) :=
  let (s, acm, collected) := taCollect rows acm s
  if collected.isEmpty then .ok (s, acm)
  else
    match collected.mapM bindTaRow with
    | .error e => .error e
    | .ok rs =>
      .ok ({ s with targetAllocations :=
        orReplaceAll taKey s.targetAllocations rs }, acm)

/-- One row of the spending_policy sheet (lines 430-434):
`str(r.get('name', 'default') or 'default').strip()`,
`parse_decimal(r.get('rate')) or 0.045`,
`int(r.get('smoothing_years') or 3)` — the `int()` raises on a truthy
unparseable value, aborting the import — then
`INSERT OR REPLACE ... VALUES(1, ...)` against the fixed policy_id 1
(which also conflicts, and replaces, on the UNIQUE name). -/
def spendingStep (s : Store) (r : Row) : Except Unit Store :=
  let name :=
    match r.getCell "name" with
    | none => "default"
    | some c => pyStrip (if c.truthy then c.strVal else "default")
  let rate : Flt :=
    match parseDecimal (r.getCell "rate") with
    | some v => if v.pyTruthy then v else .fin (9 / 200)
    | none => .fin (9 / 200)
  let sy : Except Unit Int :=
    match r.getCell "smoothing_years" with
    | none => .ok 3
    | some c =>
      if c.truthy then
        match c.intVal with
        | some i => .ok i
        | none => .error ()
      else .ok 3
  match sy with
  | .error e => .error e
  | .ok sy =>
    match rate.bindReal with
    | some q =>
      .ok { s with spendingPolicy :=
        (s.spendingPolicy.filter
          (fun p => !(decide (p.1 = 1) || decide (p.2.1 = name))))
          ++ [(1, name, q, sy)] }
    | none => .error ()

/-- The spending_policy sheet loop (lines 428-434). -/
def procSpendingPolicy (rows : List Row) (s : Store) : Except Unit Store :=
  rows.foldl (exStep spendingStep) (.ok s)

/-- One row of the inflation sheet (lines 439-447). -/
def inflationRowParse (r : Row) : Option (String × Flt) :=
  let asof := parseDate (r.getCell "asof")
  let idx : Option Flt :=
    match r.getCell "cpi_index" with
    | none => none
    | some c => c.floatVal
  match idx with
  | some v => if asof ≠ "" then some (asof, v) else none
  | none => none

/-- Bind one collected inflation row (`cpi_index REAL NOT NULL`). -/
def bindInflationRow (x : String × Flt) : Except Unit (String × Rat) :=
  match x.2.bindReal with
  | some q => .ok (x.1, q)
  | none => .error ()

/-- The inflation sheet (lines 436-449): `INSERT OR REPLACE` on asof. -/
def procInflation (rows : List Row) (s : Store) : Except Unit Store :=
  let collected := rows.filterMap inflationRowParse
  if collected.isEmpty then .ok s
  else
    match collected.mapM bindInflationRow with
    | .error e => .error e
    | .ok rs => .ok { s with inflation := orReplaceAll inflationKey s.inflation rs }

/-- `'name' in xls.sheet_names` plus `pd.read_excel(xls, 'name')`. -/
def sheetOf (wb : Workbook) (n : String) : Option (List Row) :=
  (wb.find? (fun p => decide (p.1 = n))).map (fun p => p.2)

/-- `import_from_excel` (src/app.py lines 288-451): process the eight
recognized sheets in source order, building the name→id maps at the same
points the code does.  `.ok` means control reached the final
`conn.commit()` (line 451); `.error` means an exception was raised first,
so nothing was committed. -/
def importFromExcel (wb : Workbook) (s : Store) : Except Unit Store := do
  let s :=
    match sheetOf wb "asset_classes" with
    | some rs => procAssetClasses rs s
    | none => s
  let s :=
    match sheetOf wb "benchmarks" with
    | some rs => procBenchmarks rs s
    | none => s
  let acm := acMapOf s
  let bmm := bmMapOf s
  let (s, acm, _bmm) ←
    match sheetOf wb "funds" with
    | some rs => procFunds rs s acm bmm
    | none => pure (s, acm, bmm)
  let fundMap := fundMapOf s
  let s ←
    match sheetOf wb "returns" with
    | some rs => procReturns rs fundMap s
    | none => pure s
  let s ←
    match sheetOf wb "contributions" with
    | some rs => procContributions rs s
    | none => pure s
  let (s, _acm2) ←
    match sheetOf wb "target_allocations" with
    | some rs => procTargetAllocations rs acm s
    | none => pure (s, acm)
  let s ←
    match sheetOf wb "spending_policy" with
    | some rs => procSpendingPolicy rs s
    | none => pure s
  let s ←
    match sheetOf wb "inflation" with
    | some rs => procInflation rs s
    | none => pure s
  pure s

/-- The `import-xlsx` command path (src/app.py lines 572-583): on success
the single `conn.commit()` at the end of `import_from_excel` persists the
new state; on an exception the `finally: conn.close()` discards the
uncommitted transaction, leaving the store as it was. -/
def runImportXlsx (wb : Workbook) (s : Store) : Store :=
  match importFromExcel wb s with
  | .ok s2 => s2
  | .error _ => s

/-- `make_template_xlsx` (src/app.py lines 454-464): the workbook with
exactly the eight recognized sheets, their header rows only, zero data
rows. -/
def makeTemplateWorkbook : Workbook :=
  [("asset_classes", []), ("benchmarks", []), ("funds", []),
   ("returns", []), ("contributions", []), ("target_allocations", []),
   ("spending_policy", []), ("inflation", [])]

/-- Rational stand-in for the binary64 value of `12.0 ** 0.5` inverted:
`monthly_params` divides sigma by `sqrt(12)`; the quotient feeds only the
abstract `gauss` parameter, so the stand-in's exact value is irrelevant
to every claim proved below. -/
def sqrt12inv : Rat := 288675 / 1000000

/-- `monthly_params` (src/app.py lines 237-238): annualized (mu, sigma)
to monthly terms. -/
def monthlyParams (mu sigma : Rat) : Rat × Rat :=
  (mu / 12, sigma * sqrt12inv)

/-- The clipping of a drawn return (line 246):
`max(min(x, 0.35), -0.35)`. -/
def clipReturn (x : Rat) : Rat :=
  max (min x (35 / 100)) (-(35 / 100))

/-- The six seeded asset classes (lines 159-166), in insertion order. -/
def seedAssetNames : List String :=
  ["US Equity", "International Equity", "Fixed Income", "Real Assets",
   "Private Equity", "Cash"]

/-- The six seeded benchmarks (lines 169-176). -/
def seedBenchmarkRows : List (String × Option String) :=
  [("S&P 500", some "^GSPC"), ("MSCI ACWI ex US", none),
   ("Bloomberg US Agg", none), ("NAREIT", none),
   ("Cambridge PE (proxy)", none), ("3M T-Bill", none)]

/-- The target-allocation snapshot weights (lines 202-209), in dict
insertion order. -/
def seedAllocations : List (String × Rat) :=
  [("US Equity", 30 / 100), ("International Equity", 20 / 100),
   ("Fixed Income", 20 / 100), ("Real Assets", 10 / 100),
   ("Private Equity", 15 / 100), ("Cash", 5 / 100)]

/-- The annualized (mu, sigma) assumptions per fund (lines 226-233), in
dict insertion order — the order the random draws are consumed in. -/
def seedAssumptions : List (String × Rat × Rat) :=
  [("US Equity", 7 / 100, 15 / 100),
   ("International Equity", 65 / 1000, 16 / 100),
   ("Fixed Income", 3 / 100, 5 / 100),
   ("Real Assets", 5 / 100, 10 / 100),
   ("Private Equity", 9 / 100, 25 / 100),
   ("Cash", 2 / 100, 1 / 100)]

/-- Lines 158-179 of `seed_sample_data`: `INSERT OR IGNORE` of the six
asset classes. -/
def seedACPhase (s : Store) : Store :=
  seedAssetNames.foldl insertAssetClassIgnore s

/-- Lines 169-179: `INSERT OR IGNORE` of the six benchmarks. -/
def seedBMPhase (s : Store) : Store :=
  seedBenchmarkRows.foldl (fun s p => insertBenchmarkIgnore s p.1 p.2) s

/-- The funds rows of lines 187-194, resolved through the name→id maps
of lines 181-185.  The direct dict indexing `ac_id_by_name[name]` /
`bm_id_by_name[name]` cannot miss (the names were just inserted), so it
is modelled with a defaulted lookup. -/
def seedFundRows (s : Store) : List (String × Nat × Option Nat) :=
  let acId := fun n => (lookupName (acMapOf s) n).getD 0
  let bmId := fun n => (lookupName (bmMapOf s) n).getD 0
  [("US Equity", acId "US Equity", some (bmId "S&P 500")),
   ("International Equity", acId "International Equity",
     some (bmId "MSCI ACWI ex US")),
   ("Fixed Income", acId "Fixed Income", some (bmId "Bloomberg US Agg")),
   ("Real Assets", acId "Real Assets", some (bmId "NAREIT")),
   ("Private Equity", acId "Private Equity",
     some (bmId "Cambridge PE (proxy)")),
   ("Cash", acId "Cash", some (bmId "3M T-Bill"))]

/-- Lines 181-198: the six funds, insert-if-absent. -/
def seedFundsPhase (s : Store) : Store :=
  (seedFundRows s).foldl (fun s p => insertFundIgnore s p.1 p.2.1 p.2.2) s

/-- The allocation-snapshot rows of lines 200-212, resolved through the
asset-class map.  The code uses the map built at lines 182-183; the
funds phase never touches `asset_classes`, so rebuilding the map from
the store here is the same map. -/
def seedTARows (s : Store) : List (String × Nat × Rat) :=
  seedAllocations.map
    (fun p => ("2019-06-30", (lookupName (acMapOf s) p.1).getD 0, p.2))

/-- Lines 200-216: the 2019-06-30 allocation snapshot, insert-if-absent
on (asof, asset_class_id). -/
def seedTAPhase (s : Store) : Store :=
  { s with targetAllocations :=
      orIgnoreAll taKey s.targetAllocations (seedTARows s) }

/-- The reference-data phase of `seed_sample_data` (lines 158-235):
asset classes, benchmarks, funds, the allocation snapshot and the
spending policy (lines 218-222) — all insert-if-absent, in source
order. -/
def seedRefPhase (s : Store) : Store :=
  insertSpendingIgnore (seedTAPhase (seedFundsPhase (seedBMPhase (seedACPhase s))))
    "default" (9 / 200) 3

/-- The monthly-returns generation loop (lines 240-247): for each
month-end, for each fund in assumption order, one gauss draw, clipped.
Returns the collected rows and the advanced generator state. -/
def genReturnRows {G : Type} (gauss : G → Rat → Rat → Rat × G)
    (months : List Date) (fundMap : List (String × Nat)) (g : G) :
    List (String × Nat × Rat) × G :=
  months.foldl
    (fun acc d =>
      seedAssumptions.foldl
        (fun acc2 a =>
          let mp := monthlyParams a.2.1 a.2.2
          let xg := gauss acc2.2 mp.1 mp.2
          (acc2.1 ++ [(d.iso, (lookupName fundMap a.1).getD 0, clipReturn xg.1)],
            xg.2))
        acc)
    ([], g)

/-- The contribution rows (lines 253-256): +2,000,000 each July 1 from
`max(start.year, 2010)` through `end.year`.  (The f-string does not
zero-pad the year, hence `toString`.) -/
def seedContribRows (startYear endY : Nat) : List (String × Rat × Option String) :=
  (List.range (endY + 1 - max startYear 2010)).map
    (fun i => (toString (max startYear 2010 + i) ++ "-07-01",
      (2000000 : Rat), some "gift"))

/-- The inflation generation loop (lines 262-270): one gauss draw per
month-end from the same generator, compounding the index from 100.0. -/
def genInflationRows {G : Type} (gauss : G → Rat → Rat → Rat × G)
    (months : List Date) (g : G) : List (String × Rat) × G :=
  let st := months.foldl
    (fun st d =>
      let (cpi, g, rows) := st
      let xg := gauss g ((25 / 1000) / 12) ((1 / 100) * sqrt12inv)
      let cpi2 := cpi * (1 + xg.1)
      (cpi2, xg.2, rows ++ [(d.iso, cpi2)]))
    ((100 : Rat), g, [])
  (st.2.2, st.2.1)

/-- Lines 149-154 of `seed_sample_data`: the end bound of the generated
range, derived from `dt.date.today()` alone — the last fully completed
calendar month before `today`. -/
def seedEndDate (today : Date) : Date :=
  let endMonth := if today.m - 1 = 0 then 12 else today.m - 1
  let endYearAdjusted := if 1 < today.m then today.y else today.y - 1
  ⟨endYearAdjusted, endMonth, daysInMonth endYearAdjusted endMonth⟩

/-- The time-series phase of `seed_sample_data` (lines 240-276): the
monthly returns batch (`INSERT OR IGNORE`), the contribution rows, and
the inflation batch (`INSERT OR REPLACE`), consuming the generator state
left by the returns draws.  The `INSERT OR IGNORE INTO contributions`
(line 258) is modelled as a plain append because the contributions table
has no UNIQUE constraint — its only key is the autoincrement
`contribution_id` — so the OR IGNORE clause never suppresses anything. -/
def seedTimeSeries {G : Type} (gauss : G → Rat → Rat → Rat × G)
    (g0 : G) (months : List Date) (startYear endY : Nat) (s : Store) :
    Store :=
  let rr := genReturnRows gauss months (fundMapOf s) g0
  let s := { s with returns := orIgnoreAll returnsKey s.returns rr.1 }
  let s := { s with contributions :=
    s.contributions ++ seedContribRows startYear endY }
  let ir := genInflationRows gauss months rr.2
  { s with inflation := orReplaceAll inflationKey s.inflation ir.1 }

/-- `seed_sample_data` (src/app.py lines 139-276), assembled from its
reference phase (lines 158-235) and time-series phase (lines 240-276).
`today` stands for `dt.date.today()`; `gauss`/`init` stand for
`random.Random`, whose state is initialized once from `rng_seed` and
consumed in a fixed order.  Note that the `end_year` parameter is only
read in the dead defaulting assignment of lines 146-147 (mirrored by
`_endYear`): the generated range depends on `today` alone. -/
def seedSampleData {G : Type} (gauss : G → Rat → Rat → Rat × G)
    (init : Nat → G) (rngSeed startYear : Nat) (endYear : Option Nat)
    (today : Date) (s : Store) : Store :=
  let _endYear := match endYear with | none => today.y | some yv => yv
  seedTimeSeries gauss (init rngSeed)
    (monthEnds ⟨startYear, 1, 1⟩ (seedEndDate today)) startYear
    (seedEndDate today).y (seedRefPhase s)

/-! ## Witness fixtures

Concrete cells, stores and workbooks used by the witness and
counterexample theorems below.  The oracle fields are populated the way
the Python primitives would behave on the corresponding concrete value;
fields a handler never consults for the column the cell is used in are
populated conservatively. -/

/-- A cell holding a date value that `pd.to_datetime` normalizes to the
given ISO string. -/
def dateCell (iso : String) : Cell :=
  ⟨false, true, iso, iso, none, none, none, some iso, true⟩

/-- A cell holding a plain non-numeric, non-date string. -/
def strCell (s : String) : Cell :=
  ⟨false, true, s, s, none, none, none, none, decide (s ≠ "")⟩

/-- A cell holding a finite number `q` (`float` succeeds, `int`
truncates toward zero). -/
def numCell (q : Rat) : Cell :=
  ⟨false, false, toString q, toString q, some (.fin q), none,
   some (if 0 ≤ q then q.floor else q.ceil), none, decide (q ≠ 0)⟩

/-- A string cell ending in a percent sign; `body` is the outcome of
`float` on the string without its final percent sign. -/
def pctCell (s : String) (body : Option Flt) : Cell :=
  ⟨false, true, s, s, none, body, none, none, decide (s ≠ "")⟩

/-- A generator instance for witnesses: trivial state, every draw 0. -/
def constGauss : Unit → Rat → Rat → Rat × Unit := fun _ _ _ => ((0 : Rat), ())

/-- The matching trivial seeding function. -/
def constInit : Nat → Unit := fun _ => ()

/-- A store already holding one asset class and one fund named "F". -/
def storeWithFundF : Store :=
  { emptyStore with assetClasses := [(1, "AC")], funds := [(1, "F", 1, none)] }

/-- A workbook whose returns sheet references the unknown fund name
"Mystery". -/
def wbUnknownFund : Workbook :=
  [("returns",
    [[("asof", dateCell "2024-01-31"), ("fund", strCell "Mystery"),
      ("monthly_return", numCell 0)]])]

/-- A workbook with a valid returns row followed by a spending_policy
row whose smoothing_years cell is a truthy string `int()` cannot parse. -/
def wbAbortingImport : Workbook :=
  [("returns",
    [[("asof", dateCell "2024-01-31"), ("fund", strCell "F"),
      ("monthly_return", numCell 0)]]),
   ("spending_policy",
    [[("name", strCell "P"), ("rate", numCell 0),
      ("smoothing_years", strCell "three")]])]

/-- A workbook whose spending_policy row has an unparseable rate. -/
def wbBadRate : Workbook :=
  [("spending_policy",
    [[("name", strCell "P"), ("rate", strCell "abc"),
      ("smoothing_years", numCell 2)]])]

/-! ## Claim theorems -/

theorem daysInMonth_bounds (y m : Nat) :
    28 ≤ daysInMonth y m ∧ daysInMonth y m ≤ 31 := by
  unfold daysInMonth
  split_ifs <;> omega

theorem monthEndAt_lt (t : Nat) :
    Date.lt (monthEndAt t) (monthEndAt (t + 1)) := by
  unfold monthEndAt Date.lt
  dsimp only
  by_cases h12 : t % 12 = 11
  · exact Or.inl (by omega)
  · exact Or.inr ⟨by omega, Or.inl (by omega)⟩

/-- C8: for every pair of dates start ≤ end with calendar-valid month
fields, `_month_ends` yields one date per calendar month from start's
month through end's month inclusive (the i-th yielded date is month
`start.y*12 + start.m - 1 + i`), each yielded date carries the true last
calendar day of its month (within 28..31; in February exactly 29 in leap
years and 28 otherwise), and the dates are strictly ascending, rolling
December over into January of the next year. -/
theorem c8_month_ends_correct (s e : Date)
    (h1 : 1 ≤ s.m) (h2 : s.m ≤ 12) (h3 : 1 ≤ e.m) (h4 : e.m ≤ 12)
    (hle : Date.le s e) :
    (monthEnds s e).length = e.y * 12 + e.m + 1 - (s.y * 12 + s.m) ∧
    (monthEnds s e).map (fun x => (x.y, x.m)) =
      (List.range (e.y * 12 + e.m + 1 - (s.y * 12 + s.m))).map
        (fun i => ((s.y * 12 + s.m - 1 + i) / 12,
          (s.y * 12 + s.m - 1 + i) % 12 + 1)) ∧
    (∀ x ∈ monthEnds s e,
      x.d = daysInMonth x.y x.m ∧ 28 ≤ x.d ∧ x.d ≤ 31 ∧
      (x.m = 2 → x.d = (if isLeapYear x.y then 29 else 28))) ∧
    (monthEnds s e).Chain' Date.lt := by
  have hcnt : 1 ≤ e.y * 12 + e.m + 1 - (s.y * 12 + s.m) := by
    rcases hle with hlt | heq
    · rcases hlt with hy | ⟨hy, hm | ⟨hm, _⟩⟩ <;> omega
    · subst heq; omega
  rw [monthEnds_closed_form s e h1 h2 h3 h4]
  refine ⟨by simp, ?_, ?_, ?_⟩
  · rw [List.map_map]
    rfl
  · intro x hx
    rcases List.mem_map.mp hx with ⟨i, _, hxe⟩
    subst hxe
    refine ⟨rfl, (daysInMonth_bounds _ _).1, (daysInMonth_bounds _ _).2, ?_⟩
    intro hm2
    have hm2b : (s.y * 12 + s.m - 1 + i) % 12 + 1 = 2 := hm2
    show daysInMonth ((s.y * 12 + s.m - 1 + i) / 12)
      ((s.y * 12 + s.m - 1 + i) % 12 + 1) = _
    rw [hm2b]
    simp [daysInMonth, monthEndAt]
  · cases hn : e.y * 12 + e.m + 1 - (s.y * 12 + s.m) with
    | zero => omega
    | succ n =>
      rw [List.chain'_map, List.chain'_range_succ]
      intro i hi
      show Date.lt (monthEndAt (s.y * 12 + s.m - 1 + i))
        (monthEndAt (s.y * 12 + s.m - 1 + (i + 1)))
      rw [show s.y * 12 + s.m - 1 + (i + 1) =
        s.y * 12 + s.m - 1 + i + 1 from by omega]
      exact monthEndAt_lt _

/-- Witness for C8 at start 2020-01-01, end 2020-12-31: twelve strictly
ascending month ends, February yielding 29 in the leap year 2020. -/
theorem c8_month_ends_correct_witness :
    (monthEnds ⟨2020, 1, 1⟩ ⟨2020, 12, 31⟩).length = 12 ∧
    (∀ x ∈ monthEnds ⟨2020, 1, 1⟩ ⟨2020, 12, 31⟩,
      x.d = daysInMonth x.y x.m ∧ 28 ≤ x.d ∧ x.d ≤ 31 ∧
      (x.m = 2 → x.d = (if isLeapYear x.y then 29 else 28))) ∧
    (monthEnds ⟨2020, 1, 1⟩ ⟨2020, 12, 31⟩).Chain' Date.lt := by
  have h := c8_month_ends_correct ⟨2020, 1, 1⟩ ⟨2020, 12, 31⟩
    (by decide) (by decide) (by decide) (by decide) (by decide)
  exact ⟨h.1, h.2.2.1, h.2.2.2⟩

/-- C1 (code-bug evidence): `seed_sample_data` never reads its
`end_year` parameter beyond the dead defaulting assignment, so two calls
differing only in `end_year` produce identical stores; and with
2026-10-12 as the current date, seeding with start_year = 2020 covers 81
month-ends — 2020-01-31 through 2026-09-30, bounded by today alone —
where the claim requires exactly the 12 month-ends of 2020 when
end_year = 2020. -/
theorem c1_seed_ignores_end_year :
    (∀ (G : Type) (gauss : G → Rat → Rat → Rat × G) (init : Nat → G)
      (sd sy : Nat) (ey1 ey2 : Option Nat) (today : Date) (s : Store),
      seedSampleData gauss init sd sy ey1 today s =
        seedSampleData gauss init sd sy ey2 today s) ∧
    seedEndDate ⟨2026, 10, 12⟩ = ⟨2026, 9, 30⟩ ∧
    (monthEnds ⟨2020, 1, 1⟩ (seedEndDate ⟨2026, 10, 12⟩)).length = 81 ∧
    12 < (monthEnds ⟨2020, 1, 1⟩ (seedEndDate ⟨2026, 10, 12⟩)).length :=
  ⟨fun _ _ _ _ _ _ _ _ _ => rfl, by decide, by decide, by decide⟩

/-- C5: seeding is deterministic — two runs with the same rng seed, the
same parameters and the same current date against two fresh stores
produce identical returns and inflation tables, for every generator
implementation (the draw source is initialized once per call from the
seed and consumed in a fixed order by the pure generation loops). -/
theorem c5_seed_deterministic {G : Type} (gauss : G → Rat → Rat → Rat × G)
    (init : Nat → G) (sd sy : Nat) (ey : Option Nat) (today : Date)
    (s1 s2 : Store) (h1 : s1 = emptyStore) (h2 : s2 = emptyStore) :
    (seedSampleData gauss init sd sy ey today s1).returns =
      (seedSampleData gauss init sd sy ey today s2).returns ∧
    (seedSampleData gauss init sd sy ey today s1).inflation =
      (seedSampleData gauss init sd sy ey today s2).inflation := by
  subst h1
  subst h2
  exact ⟨rfl, rfl⟩

/-- Witness for C5: `seed(store, 2006, 2007, rngSeed=42)` on two fresh
stores (at a fixed current date) gives identical returns and inflation
tables. -/
theorem c5_seed_deterministic_witness :
    (seedSampleData constGauss constInit 42 2006 (some 2007) ⟨2010, 2, 5⟩
        emptyStore).returns =
      (seedSampleData constGauss constInit 42 2006 (some 2007) ⟨2010, 2, 5⟩
        emptyStore).returns ∧
    (seedSampleData constGauss constInit 42 2006 (some 2007) ⟨2010, 2, 5⟩
        emptyStore).inflation =
      (seedSampleData constGauss constInit 42 2006 (some 2007) ⟨2010, 2, 5⟩
        emptyStore).inflation :=
  c5_seed_deterministic constGauss constInit 42 2006 (some 2007)
    ⟨2010, 2, 5⟩ emptyStore emptyStore rfl rfl

/-- C9: importing the untouched template workbook (exactly the eight
recognized sheets, zero data rows) into a fresh schema-initialized store
completes without error and leaves all eight domain tables empty. -/
theorem c9_template_round_trip :
    importFromExcel makeTemplateWorkbook emptyStore = .ok emptyStore ∧
    emptyStore.assetClasses = [] ∧ emptyStore.benchmarks = [] ∧
    emptyStore.funds = [] ∧ emptyStore.returns = [] ∧
    emptyStore.contributions = [] ∧ emptyStore.targetAllocations = [] ∧
    emptyStore.spendingPolicy = [] ∧ emptyStore.inflation = [] :=
  ⟨rfl, rfl, rfl, rfl, rfl, rfl, rfl, rfl, rfl⟩

/-- C10: `import_from_excel` commits exactly once, after all sheets; when
any sheet raises, the import-xlsx command path closes the connection
without committing, so the store is left exactly as it was — including
rows already staged from earlier sheets. -/
theorem c10_import_atomic_on_error (wb : Workbook) (s : Store) (e : Unit)
    (h : importFromExcel wb s = .error e) : runImportXlsx wb s = s := by
  unfold runImportXlsx
  rw [h]

/-- Witness for C10: a workbook whose returns sheet stages a valid row
into a store holding fund "F" and whose spending_policy sheet then
raises in `int()`; the import errors and the committed store is
unchanged. -/
theorem c10_import_atomic_on_error_witness :
    importFromExcel wbAbortingImport storeWithFundF = .error () ∧
    runImportXlsx wbAbortingImport storeWithFundF = storeWithFundF :=
  ⟨rfl, c10_import_atomic_on_error wbAbortingImport storeWithFundF () rfl⟩

/-- C6: the importer's decimal/percent normalization — a string with a
trailing percent sign whose body parses is divided by 100; a bare
numeric value v with 1 < v ≤ 100 is divided by 100; every other bare
numeric value passes through unchanged. -/
theorem c6_parse_decimal_normalization :
    (∀ (c : Cell) (b : Flt), c.isna = false → c.isStr = true →
      c.strVal ≠ "" → endsWithPct c.stripped = true → c.pctFloat = some b →
      parseDecimal (some c) = some b.div100) ∧
    (∀ (c : Cell) (q : Rat), c.isna = false → c.isStr = false →
      c.floatVal = some (.fin q) → 1 < q → q ≤ 100 →
      parseDecimal (some c) = some (.fin (q / 100))) ∧
    (∀ (c : Cell) (q : Rat), c.isna = false → c.isStr = false →
      c.floatVal = some (.fin q) → ¬(1 < q ∧ q ≤ 100) →
      parseDecimal (some c) = some (.fin q)) := by
  refine ⟨?_, ?_, ?_⟩
  · intro c b hna hstr hne hpct hb
    simp [parseDecimal, hna, hstr, hne, hpct, hb]
  · intro c q hna hstr hfv h1 h2
    simp [parseDecimal, hna, hstr, hfv, Flt.isPctRange, Flt.div100, h1, h2]
  · intro c q hna hstr hfv hn
    simp [parseDecimal, hna, hstr, hfv, Flt.isPctRange, Flt.div100, hn]

/-- Witness for C6: "1.2%" yields 0.012; bare 4.5 yields 0.045; bare
0.02 passes through unchanged. -/
theorem c6_parse_decimal_normalization_witness :
    parseDecimal (some (pctCell "1.2%" (some (.fin (mkRat 6 5))))) =
      some (.fin (mkRat 3 250)) ∧
    parseDecimal (some (numCell (mkRat 9 2))) = some (.fin (mkRat 9 200)) ∧
    parseDecimal (some (numCell (mkRat 1 50))) = some (.fin (mkRat 1 50)) := by
  refine ⟨?_, ?_, ?_⟩
  · have h := c6_parse_decimal_normalization.1 (pctCell "1.2%" (some (.fin (mkRat 6 5))))
      (.fin (mkRat 6 5)) rfl rfl (by decide) (by decide) rfl
    rw [h]
    show some (Flt.fin (mkRat 6 5 / 100)) = _
    norm_num [Rat.mkRat_eq_div]
  · have h := c6_parse_decimal_normalization.2.1 (numCell (mkRat 9 2))
      (mkRat 9 2) rfl rfl rfl (by decide) (by decide)
    rw [h]
    norm_num [Rat.mkRat_eq_div]
  · exact c6_parse_decimal_normalization.2.2 (numCell (mkRat 1 50))
      (mkRat 1 50) rfl rfl rfl (by decide)

/-- The reference content `seed_sample_data` writes into a fresh store:
the computed value of `seedRefPhase emptyStore`, spelled out
(`refStore_eq` checks it). -/
def refStore : Store :=
  { assetClasses :=
      [(1, "US Equity"), (2, "International Equity"), (3, "Fixed Income"),
       (4, "Real Assets"), (5, "Private Equity"), (6, "Cash")]
    benchmarks :=
      [(1, "S&P 500", some "^GSPC"), (2, "MSCI ACWI ex US", none),
       (3, "Bloomberg US Agg", none), (4, "NAREIT", none),
       (5, "Cambridge PE (proxy)", none), (6, "3M T-Bill", none)]
    funds :=
      [(1, "US Equity", 1, some 1), (2, "International Equity", 2, some 2),
       (3, "Fixed Income", 3, some 3), (4, "Real Assets", 4, some 4),
       (5, "Private Equity", 5, some 5), (6, "Cash", 6, some 6)]
    returns := []
    contributions := []
    targetAllocations :=
      [("2019-06-30", 1, 30 / 100), ("2019-06-30", 2, 20 / 100),
       ("2019-06-30", 3, 20 / 100), ("2019-06-30", 4, 10 / 100),
       ("2019-06-30", 5, 15 / 100), ("2019-06-30", 6, 5 / 100)]
    spendingPolicy := [(1, "default", 9 / 200, 3)]
    inflation := [] }

theorem refStore_eq : seedRefPhase emptyStore = refStore := rfl

/-! ### Stability of the reference phase

Every reference-phase insert is insert-if-absent on a name (for the
allocation snapshot, on its (asof, asset_class_id) key), so once one
run of `seedRefPhase` has written its rows, a later run of
`seedRefPhase` is a no-op — on any starting store, not only a fresh
one.  The lemmas below record the shape of each phase (it rewrites a
single table), that each phase leaves its names present, and that a
phase whose names are all present changes nothing. -/

theorem insertBenchmarkIgnore_shape (s : Store) (n : String)
    (tk : Option String) :
    ∃ t, insertBenchmarkIgnore s n tk = { s with benchmarks := t } := by
  unfold insertBenchmarkIgnore
  split
  · exact ⟨s.benchmarks, rfl⟩
  · exact ⟨_, rfl⟩

theorem insertFundIgnore_shape (s : Store) (n : String) (ac : Nat)
    (bm : Option Nat) :
    ∃ t, insertFundIgnore s n ac bm = { s with funds := t } := by
  unfold insertFundIgnore
  split
  · exact ⟨s.funds, rfl⟩
  · exact ⟨_, rfl⟩

theorem insertSpendingIgnore_shape (s : Store) (n : String) (rate : Rat)
    (sy : Int) :
    ∃ t, insertSpendingIgnore s n rate sy = { s with spendingPolicy := t } := by
  unfold insertSpendingIgnore
  split
  · exact ⟨s.spendingPolicy, rfl⟩
  · exact ⟨_, rfl⟩

theorem foldlBM_shape (l : List (String × Option String)) :
    ∀ s : Store, ∃ t,
      l.foldl (fun s q => insertBenchmarkIgnore s q.1 q.2) s =
        { s with benchmarks := t } := by
  induction l with
  | nil => intro s; exact ⟨s.benchmarks, rfl⟩
  | cons a as ih =>
    intro s
    obtain ⟨t0, h0⟩ := insertBenchmarkIgnore_shape s a.1 a.2
    obtain ⟨t1, h1⟩ := ih (insertBenchmarkIgnore s a.1 a.2)
    refine ⟨t1, ?_⟩
    rw [List.foldl_cons, h1, h0]

theorem foldlFD_shape (l : List (String × Nat × Option Nat)) :
    ∀ s : Store, ∃ t,
      l.foldl (fun s q => insertFundIgnore s q.1 q.2.1 q.2.2) s =
        { s with funds := t } := by
  induction l with
  | nil => intro s; exact ⟨s.funds, rfl⟩
  | cons a as ih =>
    intro s
    obtain ⟨t0, h0⟩ := insertFundIgnore_shape s a.1 a.2.1 a.2.2
    obtain ⟨t1, h1⟩ := ih (insertFundIgnore s a.1 a.2.1 a.2.2)
    refine ⟨t1, ?_⟩
    rw [List.foldl_cons, h1, h0]

theorem seedBMPhase_assetClasses (s : Store) :
    (seedBMPhase s).assetClasses = s.assetClasses := by
  unfold seedBMPhase
  obtain ⟨t, h⟩ := foldlBM_shape seedBenchmarkRows s
  rw [h]

theorem seedFundsPhase_assetClasses (s : Store) :
    (seedFundsPhase s).assetClasses = s.assetClasses := by
  unfold seedFundsPhase
  obtain ⟨t, h⟩ := foldlFD_shape (seedFundRows s) s
  rw [h]

theorem seedFundsPhase_benchmarks (s : Store) :
    (seedFundsPhase s).benchmarks = s.benchmarks := by
  unfold seedFundsPhase
  obtain ⟨t, h⟩ := foldlFD_shape (seedFundRows s) s
  rw [h]

theorem seedTAPhase_assetClasses (s : Store) :
    (seedTAPhase s).assetClasses = s.assetClasses := rfl

theorem seedTAPhase_benchmarks (s : Store) :
    (seedTAPhase s).benchmarks = s.benchmarks := rfl

theorem seedTAPhase_funds (s : Store) :
    (seedTAPhase s).funds = s.funds := rfl

theorem seedTAPhase_targetAllocations (s : Store) :
    (seedTAPhase s).targetAllocations =
      orIgnoreAll taKey s.targetAllocations (seedTARows s) := rfl

theorem insertSpendingIgnore_assetClasses (s : Store) (n : String)
    (rate : Rat) (sy : Int) :
    (insertSpendingIgnore s n rate sy).assetClasses = s.assetClasses := by
  obtain ⟨t, h⟩ := insertSpendingIgnore_shape s n rate sy
  rw [h]

theorem insertSpendingIgnore_benchmarks (s : Store) (n : String)
    (rate : Rat) (sy : Int) :
    (insertSpendingIgnore s n rate sy).benchmarks = s.benchmarks := by
  obtain ⟨t, h⟩ := insertSpendingIgnore_shape s n rate sy
  rw [h]

theorem insertSpendingIgnore_funds (s : Store) (n : String)
    (rate : Rat) (sy : Int) :
    (insertSpendingIgnore s n rate sy).funds = s.funds := by
  obtain ⟨t, h⟩ := insertSpendingIgnore_shape s n rate sy
  rw [h]

theorem insertSpendingIgnore_targetAllocations (s : Store) (n : String)
    (rate : Rat) (sy : Int) :
    (insertSpendingIgnore s n rate sy).targetAllocations =
      s.targetAllocations := by
  obtain ⟨t, h⟩ := insertSpendingIgnore_shape s n rate sy
  rw [h]

theorem seedRefPhase_assetClasses (s : Store) :
    (seedRefPhase s).assetClasses = (seedACPhase s).assetClasses := by
  unfold seedRefPhase
  rw [insertSpendingIgnore_assetClasses, seedTAPhase_assetClasses,
    seedFundsPhase_assetClasses, seedBMPhase_assetClasses]

theorem seedRefPhase_benchmarks (s : Store) :
    (seedRefPhase s).benchmarks =
      (seedBMPhase (seedACPhase s)).benchmarks := by
  unfold seedRefPhase
  rw [insertSpendingIgnore_benchmarks, seedTAPhase_benchmarks,
    seedFundsPhase_benchmarks]

theorem seedRefPhase_funds (s : Store) :
    (seedRefPhase s).funds =
      (seedFundsPhase (seedBMPhase (seedACPhase s))).funds := by
  unfold seedRefPhase
  rw [insertSpendingIgnore_funds, seedTAPhase_funds]

theorem seedRefPhase_targetAllocations (s : Store) :
    (seedRefPhase s).targetAllocations =
      orIgnoreAll taKey
        (seedFundsPhase (seedBMPhase (seedACPhase s))).targetAllocations
        (seedTARows (seedFundsPhase (seedBMPhase (seedACPhase s)))) := by
  unfold seedRefPhase
  rw [insertSpendingIgnore_targetAllocations, seedTAPhase_targetAllocations]

theorem acHas_insert_self (s : Store) (n : String) :
    (insertAssetClassIgnore s n).assetClasses.any
      (fun p => decide (p.2 = n)) = true := by
  unfold insertAssetClassIgnore
  by_cases h : s.assetClasses.any (fun p => decide (p.2 = n)) = true
  · rw [if_pos h]; exact h
  · rw [if_neg h]
    simp [List.any_append]

theorem acHas_insert_mono (s : Store) (n m : String)
    (h : s.assetClasses.any (fun p => decide (p.2 = m)) = true) :
    (insertAssetClassIgnore s n).assetClasses.any
      (fun p => decide (p.2 = m)) = true := by
  unfold insertAssetClassIgnore
  split
  · exact h
  · simp [List.any_append, h]

theorem acHas_foldl_mono (l : List String) :
    ∀ (s : Store) (m : String),
      s.assetClasses.any (fun p => decide (p.2 = m)) = true →
      (l.foldl insertAssetClassIgnore s).assetClasses.any
        (fun p => decide (p.2 = m)) = true := by
  induction l with
  | nil => intro s m h; exact h
  | cons a as ih =>
    intro s m h
    rw [List.foldl_cons]
    exact ih _ m (acHas_insert_mono s a m h)

theorem acHas_foldl_of_mem (l : List String) :
    ∀ (s : Store) (n : String), n ∈ l →
      (l.foldl insertAssetClassIgnore s).assetClasses.any
        (fun p => decide (p.2 = n)) = true := by
  induction l with
  | nil => intro s n hn; cases hn
  | cons a as ih =>
    intro s n hn
    rw [List.foldl_cons]
    rcases List.mem_cons.mp hn with h1 | h2
    · subst h1
      exact acHas_foldl_mono as _ n (acHas_insert_self s n)
    · exact ih _ n h2

theorem bmHas_insert_self (s : Store) (n : String) (tk : Option String) :
    (insertBenchmarkIgnore s n tk).benchmarks.any
      (fun p => decide (p.2.1 = n)) = true := by
  unfold insertBenchmarkIgnore
  by_cases h : s.benchmarks.any (fun p => decide (p.2.1 = n)) = true
  · rw [if_pos h]; exact h
  · rw [if_neg h]
    simp [List.any_append]

theorem bmHas_insert_mono (s : Store) (n : String) (tk : Option String)
    (m : String)
    (h : s.benchmarks.any (fun p => decide (p.2.1 = m)) = true) :
    (insertBenchmarkIgnore s n tk).benchmarks.any
      (fun p => decide (p.2.1 = m)) = true := by
  unfold insertBenchmarkIgnore
  split
  · exact h
  · simp [List.any_append, h]

theorem bmHas_foldl_mono (l : List (String × Option String)) :
    ∀ (s : Store) (m : String),
      s.benchmarks.any (fun p => decide (p.2.1 = m)) = true →
      ((l.foldl (fun s q => insertBenchmarkIgnore s q.1 q.2) s).benchmarks.any
        (fun p => decide (p.2.1 = m))) = true := by
  induction l with
  | nil => intro s m h; exact h
  | cons a as ih =>
    intro s m h
    rw [List.foldl_cons]
    exact ih _ m (bmHas_insert_mono s a.1 a.2 m h)

theorem bmHas_foldl_of_mem (l : List (String × Option String)) :
    ∀ (s : Store) (p : String × Option String), p ∈ l →
      ((l.foldl (fun s q => insertBenchmarkIgnore s q.1 q.2) s).benchmarks.any
        (fun q => decide (q.2.1 = p.1))) = true := by
  induction l with
  | nil => intro s p hp; cases hp
  | cons a as ih =>
    intro s p hp
    rw [List.foldl_cons]
    rcases List.mem_cons.mp hp with h1 | h2
    · subst h1
      exact bmHas_foldl_mono as _ p.1 (bmHas_insert_self s p.1 p.2)
    · exact ih _ p h2

theorem fdHas_insert_self (s : Store) (n : String) (ac : Nat)
    (bm : Option Nat) :
    (insertFundIgnore s n ac bm).funds.any
      (fun p => decide (p.2.1 = n)) = true := by
  unfold insertFundIgnore
  by_cases h : s.funds.any (fun p => decide (p.2.1 = n)) = true
  · rw [if_pos h]; exact h
  · rw [if_neg h]
    simp [List.any_append]

theorem fdHas_insert_mono (s : Store) (n : String) (ac : Nat)
    (bm : Option Nat) (m : String)
    (h : s.funds.any (fun p => decide (p.2.1 = m)) = true) :
    (insertFundIgnore s n ac bm).funds.any
      (fun p => decide (p.2.1 = m)) = true := by
  unfold insertFundIgnore
  split
  · exact h
  · simp [List.any_append, h]

theorem fdHas_foldl_mono (l : List (String × Nat × Option Nat)) :
    ∀ (s : Store) (m : String),
      s.funds.any (fun p => decide (p.2.1 = m)) = true →
      ((l.foldl (fun s q => insertFundIgnore s q.1 q.2.1 q.2.2) s).funds.any
        (fun p => decide (p.2.1 = m))) = true := by
  induction l with
  | nil => intro s m h; exact h
  | cons a as ih =>
    intro s m h
    rw [List.foldl_cons]
    exact ih _ m (fdHas_insert_mono s a.1 a.2.1 a.2.2 m h)

theorem fdHas_foldl_of_mem (l : List (String × Nat × Option Nat)) :
    ∀ (s : Store) (p : String × Nat × Option Nat), p ∈ l →
      ((l.foldl (fun s q => insertFundIgnore s q.1 q.2.1 q.2.2) s).funds.any
        (fun q => decide (q.2.1 = p.1))) = true := by
  induction l with
  | nil => intro s p hp; cases hp
  | cons a as ih =>
    intro s p hp
    rw [List.foldl_cons]
    rcases List.mem_cons.mp hp with h1 | h2
    · subst h1
      exact fdHas_foldl_mono as _ p.1 (fdHas_insert_self s p.1 p.2.1 p.2.2)
    · exact ih _ p h2

theorem spHas_insert_self (s : Store) (n : String) (rate : Rat) (sy : Int) :
    (insertSpendingIgnore s n rate sy).spendingPolicy.any
      (fun p => decide (p.2.1 = n)) = true := by
  unfold insertSpendingIgnore
  by_cases h : s.spendingPolicy.any (fun p => decide (p.2.1 = n)) = true
  · rw [if_pos h]; exact h
  · rw [if_neg h]
    simp [List.any_append]

/-- Fund rows are named after the six asset classes (lines 187-194). -/
theorem seedFundRows_names (s : Store) :
    (seedFundRows s).map Prod.fst = seedAssetNames := rfl

/-- The allocation rows depend on the store only through its
asset-class table. -/
theorem seedTARows_congr (s1 s2 : Store)
    (h : s1.assetClasses = s2.assetClasses) :
    seedTARows s1 = seedTARows s2 := by
  unfold seedTARows acMapOf
  rw [h]

theorem seedRefPhase_has_assetClass (s : Store) (n : String)
    (hn : n ∈ seedAssetNames) :
    (seedRefPhase s).assetClasses.any (fun p => decide (p.2 = n)) = true := by
  rw [seedRefPhase_assetClasses]
  exact acHas_foldl_of_mem seedAssetNames s n hn

theorem seedRefPhase_has_benchmark (s : Store) (p : String × Option String)
    (hp : p ∈ seedBenchmarkRows) :
    (seedRefPhase s).benchmarks.any
      (fun q => decide (q.2.1 = p.1)) = true := by
  rw [seedRefPhase_benchmarks]
  exact bmHas_foldl_of_mem seedBenchmarkRows (seedACPhase s) p hp

theorem seedRefPhase_has_fundName (s : Store) (m : String)
    (hm : m ∈ seedAssetNames) :
    (seedRefPhase s).funds.any (fun q => decide (q.2.1 = m)) = true := by
  rw [seedRefPhase_funds]
  rw [← seedFundRows_names (seedBMPhase (seedACPhase s))] at hm
  rcases List.mem_map.mp hm with ⟨p, hp, hpm⟩
  have h := fdHas_foldl_of_mem
    (seedFundRows (seedBMPhase (seedACPhase s)))
    (seedBMPhase (seedACPhase s)) p hp
  rw [hpm] at h
  exact h

theorem seedRefPhase_has_taKey (s : Store) (r : String × Nat × Rat)
    (hr : r ∈ seedTARows (seedFundsPhase (seedBMPhase (seedACPhase s)))) :
    keyMem taKey (taKey r) (seedRefPhase s).targetAllocations = true := by
  rw [seedRefPhase_targetAllocations]
  exact keyMem_orIgnoreAll_of_mem taKey _ r hr _

theorem seedRefPhase_has_spending (s : Store) :
    (seedRefPhase s).spendingPolicy.any
      (fun p => decide (p.2.1 = "default")) = true := by
  show (insertSpendingIgnore
    (seedTAPhase (seedFundsPhase (seedBMPhase (seedACPhase s))))
    "default" (9 / 200) 3).spendingPolicy.any
      (fun p => decide (p.2.1 = "default")) = true
  exact spHas_insert_self _ "default" (9 / 200) 3

theorem insertAssetClassIgnore_noop (s : Store) (n : String)
    (h : s.assetClasses.any (fun p => decide (p.2 = n)) = true) :
    insertAssetClassIgnore s n = s := by
  unfold insertAssetClassIgnore
  rw [if_pos h]

theorem insertBenchmarkIgnore_noop (s : Store) (n : String)
    (tk : Option String)
    (h : s.benchmarks.any (fun p => decide (p.2.1 = n)) = true) :
    insertBenchmarkIgnore s n tk = s := by
  unfold insertBenchmarkIgnore
  rw [if_pos h]

theorem insertFundIgnore_noop (s : Store) (n : String) (ac : Nat)
    (bm : Option Nat)
    (h : s.funds.any (fun p => decide (p.2.1 = n)) = true) :
    insertFundIgnore s n ac bm = s := by
  unfold insertFundIgnore
  rw [if_pos h]

theorem insertSpendingIgnore_noop (s : Store) (n : String) (rate : Rat)
    (sy : Int)
    (h : s.spendingPolicy.any (fun p => decide (p.2.1 = n)) = true) :
    insertSpendingIgnore s n rate sy = s := by
  unfold insertSpendingIgnore
  rw [if_pos h]

theorem foldlAC_noop (l : List String) :
    ∀ s : Store,
      (∀ n ∈ l, s.assetClasses.any (fun p => decide (p.2 = n)) = true) →
      l.foldl insertAssetClassIgnore s = s := by
  induction l with
  | nil => intro s _; rfl
  | cons a as ih =>
    intro s h
    rw [List.foldl_cons,
      insertAssetClassIgnore_noop s a (h a (List.mem_cons_self a as))]
    exact ih s (fun n hn => h n (List.mem_cons_of_mem a hn))

theorem foldlBM_noop (l : List (String × Option String)) :
    ∀ s : Store,
      (∀ p ∈ l, s.benchmarks.any (fun q => decide (q.2.1 = p.1)) = true) →
      l.foldl (fun s q => insertBenchmarkIgnore s q.1 q.2) s = s := by
  induction l with
  | nil => intro s _; rfl
  | cons a as ih =>
    intro s h
    rw [List.foldl_cons]
    show as.foldl (fun s q => insertBenchmarkIgnore s q.1 q.2)
      (insertBenchmarkIgnore s a.1 a.2) = s
    rw [insertBenchmarkIgnore_noop s a.1 a.2 (h a (List.mem_cons_self a as))]
    exact ih s (fun p hp => h p (List.mem_cons_of_mem a hp))

theorem foldlFD_noop (l : List (String × Nat × Option Nat)) :
    ∀ s : Store,
      (∀ p ∈ l, s.funds.any (fun q => decide (q.2.1 = p.1)) = true) →
      l.foldl (fun s q => insertFundIgnore s q.1 q.2.1 q.2.2) s = s := by
  induction l with
  | nil => intro s _; rfl
  | cons a as ih =>
    intro s h
    rw [List.foldl_cons]
    show as.foldl (fun s q => insertFundIgnore s q.1 q.2.1 q.2.2)
      (insertFundIgnore s a.1 a.2.1 a.2.2) = s
    rw [insertFundIgnore_noop s a.1 a.2.1 a.2.2
      (h a (List.mem_cons_self a as))]
    exact ih s (fun p hp => h p (List.mem_cons_of_mem a hp))

theorem seedACPhase_noop (s : Store)
    (h : ∀ n ∈ seedAssetNames,
      s.assetClasses.any (fun p => decide (p.2 = n)) = true) :
    seedACPhase s = s :=
  foldlAC_noop seedAssetNames s h

theorem seedBMPhase_noop (s : Store)
    (h : ∀ p ∈ seedBenchmarkRows,
      s.benchmarks.any (fun q => decide (q.2.1 = p.1)) = true) :
    seedBMPhase s = s :=
  foldlBM_noop seedBenchmarkRows s h

theorem seedFundsPhase_noop (s : Store)
    (h : ∀ n ∈ seedAssetNames,
      s.funds.any (fun q => decide (q.2.1 = n)) = true) :
    seedFundsPhase s = s := by
  refine foldlFD_noop (seedFundRows s) s ?_
  intro p hp
  refine h p.1 ?_
  rw [← seedFundRows_names s]
  exact List.mem_map_of_mem Prod.fst hp

theorem seedTAPhase_noop (s : Store)
    (h : ∀ r ∈ seedTARows s,
      keyMem taKey (taKey r) s.targetAllocations = true) :
    seedTAPhase s = s := by
  unfold seedTAPhase
  rw [orIgnoreAll_noop taKey (seedTARows s) s.targetAllocations h]

/-- A store that already carries the reference content of a
`seedRefPhase` run in its reference tables — whatever its time-series
tables hold — is left unchanged by another `seedRefPhase` run: every
insert-if-absent guard fires. -/
theorem seedRefPhase_stable (s X : Store)
    (hac : X.assetClasses = (seedRefPhase s).assetClasses)
    (hbm : X.benchmarks = (seedRefPhase s).benchmarks)
    (hfd : X.funds = (seedRefPhase s).funds)
    (hta : X.targetAllocations = (seedRefPhase s).targetAllocations)
    (hsp : X.spendingPolicy = (seedRefPhase s).spendingPolicy) :
    seedRefPhase X = X := by
  have nac : seedACPhase X = X := by
    refine seedACPhase_noop X ?_
    intro n hn
    rw [hac]
    exact seedRefPhase_has_assetClass s n hn
  have nbm : seedBMPhase X = X := by
    refine seedBMPhase_noop X ?_
    intro p hp
    rw [hbm]
    exact seedRefPhase_has_benchmark s p hp
  have nfd : seedFundsPhase X = X := by
    refine seedFundsPhase_noop X ?_
    intro n hn
    rw [hfd]
    exact seedRefPhase_has_fundName s n hn
  have nta : seedTAPhase X = X := by
    refine seedTAPhase_noop X ?_
    intro r hr
    have hXac : X.assetClasses =
        (seedFundsPhase (seedBMPhase (seedACPhase s))).assetClasses := by
      rw [hac, seedRefPhase_assetClasses, seedFundsPhase_assetClasses,
        seedBMPhase_assetClasses]
    have hrows : seedTARows X =
        seedTARows (seedFundsPhase (seedBMPhase (seedACPhase s))) :=
      seedTARows_congr X _ hXac
    rw [hta]
    exact seedRefPhase_has_taKey s r (hrows ▸ hr)
  have nsp : insertSpendingIgnore X "default" (9 / 200) 3 = X := by
    refine insertSpendingIgnore_noop X "default" (9 / 200) 3 ?_
    rw [hsp]
    exact seedRefPhase_has_spending s
  show insertSpendingIgnore
    (seedTAPhase (seedFundsPhase (seedBMPhase (seedACPhase X))))
    "default" (9 / 200) 3 = X
  rw [nac, nbm, nfd, nta, nsp]

theorem updateTS_assetClasses (s : Store)
    (ret : List (String × Nat × Rat))
    (contr : List (String × Rat × Option String))
    (infl : List (String × Rat)) :
    ({ s with
        returns := ret
        contributions := contr
        inflation := infl } : Store).assetClasses = s.assetClasses := rfl

theorem updateTS_benchmarks (s : Store)
    (ret : List (String × Nat × Rat))
    (contr : List (String × Rat × Option String))
    (infl : List (String × Rat)) :
    ({ s with
        returns := ret
        contributions := contr
        inflation := infl } : Store).benchmarks = s.benchmarks := rfl

theorem updateTS_funds (s : Store)
    (ret : List (String × Nat × Rat))
    (contr : List (String × Rat × Option String))
    (infl : List (String × Rat)) :
    ({ s with
        returns := ret
        contributions := contr
        inflation := infl } : Store).funds = s.funds := rfl

theorem updateTS_targetAllocations (s : Store)
    (ret : List (String × Nat × Rat))
    (contr : List (String × Rat × Option String))
    (infl : List (String × Rat)) :
    ({ s with
        returns := ret
        contributions := contr
        inflation := infl } : Store).targetAllocations =
      s.targetAllocations := rfl

theorem updateTS_spendingPolicy (s : Store)
    (ret : List (String × Nat × Rat))
    (contr : List (String × Rat × Option String))
    (infl : List (String × Rat)) :
    ({ s with
        returns := ret
        contributions := contr
        inflation := infl } : Store).spendingPolicy =
      s.spendingPolicy := rfl

/-- Specialization of `seedRefPhase_stable`: rewriting the time-series
tables of a post-`seedRefPhase` store does not disturb its reference
tables, so a second reference run is a no-op. -/
theorem seedRefPhase_stable_update (s : Store)
    (ret : List (String × Nat × Rat))
    (contr : List (String × Rat × Option String))
    (infl : List (String × Rat)) :
    seedRefPhase
        { seedRefPhase s with
            returns := ret
            contributions := contr
            inflation := infl } =
      { seedRefPhase s with
          returns := ret
          contributions := contr
          inflation := infl } :=
  seedRefPhase_stable s
    { seedRefPhase s with
        returns := ret
        contributions := contr
        inflation := infl }
    (updateTS_assetClasses (seedRefPhase s) ret contr infl)
    (updateTS_benchmarks (seedRefPhase s) ret contr infl)
    (updateTS_funds (seedRefPhase s) ret contr infl)
    (updateTS_targetAllocations (seedRefPhase s) ret contr infl)
    (updateTS_spendingPolicy (seedRefPhase s) ret contr infl)

/-- The time-series phase on an arbitrary store, written as a single
record update. -/
theorem seedTimeSeries_unfold {G : Type} (gauss : G → Rat → Rat → Rat × G)
    (g0 : G) (months : List Date) (sy endY : Nat) (s : Store) :
    seedTimeSeries gauss g0 months sy endY s =
      { s with
          returns := orIgnoreAll returnsKey s.returns
            (genReturnRows gauss months (fundMapOf s) g0).1
          contributions := s.contributions ++ seedContribRows sy endY
          inflation := orReplaceAll inflationKey s.inflation
            (genInflationRows gauss months
              (genReturnRows gauss months (fundMapOf s) g0).2).1 } :=
  rfl

/-- The time-series phase on a store whose time-series tables have been
rewritten: the generated rows depend only on the funds table, which the
update leaves alone. -/
theorem seedTimeSeries_on_update {G : Type} (gauss : G → Rat → Rat → Rat × G)
    (g0 : G) (months : List Date) (sy endY : Nat) (s : Store)
    (ret : List (String × Nat × Rat))
    (contr : List (String × Rat × Option String))
    (infl : List (String × Rat)) :
    seedTimeSeries gauss g0 months sy endY
        { s with
            returns := ret
            contributions := contr
            inflation := infl } =
      { s with
          returns := orIgnoreAll returnsKey ret
            (genReturnRows gauss months (fundMapOf s) g0).1
          contributions := contr ++ seedContribRows sy endY
          inflation := orReplaceAll inflationKey infl
            (genInflationRows gauss months
              (genReturnRows gauss months (fundMapOf s) g0).2).1 } :=
  rfl

/-- C2 counterexample: running the identical seed twice on the same
fresh store is not idempotent — the contributions table gains a
duplicate row on the second run (its insert-or-ignore clause has no
natural key to conflict on). -/
theorem c2_reseed_duplicates_contributions :
    (seedSampleData constGauss constInit 42 2010 none ⟨2010, 2, 5⟩
        emptyStore).contributions =
      [("2010-07-01", 2000000, some "gift")] ∧
    (seedSampleData constGauss constInit 42 2010 none ⟨2010, 2, 5⟩
        (seedSampleData constGauss constInit 42 2010 none ⟨2010, 2, 5⟩
          emptyStore)).contributions =
      [("2010-07-01", 2000000, some "gift"),
       ("2010-07-01", 2000000, some "gift")] :=
  ⟨rfl, rfl⟩

/-- C2 amended: re-seeding with identical parameters on the same store
— whatever its prior contents — leaves every table unchanged except
contributions, which appends the same batch of contribution rows again
(the reference/policy/allocation inserts and the returns insert are
insert-if-absent; inflation is insert-or-replace with identical
recomputed values; the contributions insert-or-ignore has only an
autoincrement key, so it never suppresses the duplicates). -/
theorem c2_reseed_idempotent_except_contributions {G : Type}
    (gauss : G → Rat → Rat → Rat × G) (init : Nat → G) (sd sy : Nat)
    (ey : Option Nat) (today : Date) (s0 : Store) :
    seedSampleData gauss init sd sy ey today
        (seedSampleData gauss init sd sy ey today s0) =
      { seedSampleData gauss init sd sy ey today s0 with
        contributions :=
          (seedSampleData gauss init sd sy ey today s0).contributions ++
          seedContribRows sy (seedEndDate today).y } := by
  show seedTimeSeries gauss (init sd)
      (monthEnds ⟨sy, 1, 1⟩ (seedEndDate today)) sy (seedEndDate today).y
      (seedRefPhase (seedTimeSeries gauss (init sd)
        (monthEnds ⟨sy, 1, 1⟩ (seedEndDate today)) sy (seedEndDate today).y
        (seedRefPhase s0))) =
    { seedTimeSeries gauss (init sd)
        (monthEnds ⟨sy, 1, 1⟩ (seedEndDate today)) sy (seedEndDate today).y
        (seedRefPhase s0) with
      contributions :=
        (seedTimeSeries gauss (init sd)
          (monthEnds ⟨sy, 1, 1⟩ (seedEndDate today)) sy (seedEndDate today).y
          (seedRefPhase s0)).contributions ++
        seedContribRows sy (seedEndDate today).y }
  rw [seedTimeSeries_unfold gauss (init sd)
    (monthEnds ⟨sy, 1, 1⟩ (seedEndDate today)) sy (seedEndDate today).y
    (seedRefPhase s0)]
  rw [seedRefPhase_stable_update s0]
  rw [seedTimeSeries_on_update, orIgnoreAll_idem, orReplaceAll_idem]

/-- With only a returns sheet present, the import reduces to the returns
handler against the fund map of the current store. -/
theorem importFromExcel_only_returns (rows : List Row) (s : Store) :
    importFromExcel [("returns", rows)] s =
      procReturns rows (fundMapOf s) s := by
  unfold importFromExcel
  simp only [sheetOf, List.find?, String.reduceEq, decide_False, decide_True,
    Option.map_none', Option.map_some']
  simp only [pure_bind, bind_pure]

/-- C7: importing a returns sheet holding two rows with the same
(asof, fund) key leaves exactly one row for that key in the returns
table, holding the monthly_return of the later-processed row
(insert-or-replace on the composite natural key). -/
theorem c7_returns_upsert_last_wins (s : Store) (a fn : String) (fid : Nat)
    (ca cf c1 c2 : Cell) (w1 w2 : Rat)
    (hdate : parseDate (some ca) = a) (ha : a ≠ "")
    (hfund : pyStrip cf.strVal = fn)
    (hlookup : lookupName (fundMapOf s) fn = some fid) (hfid : fid ≠ 0)
    (hv1 : parseDecimal (some c1) = some (.fin w1))
    (hv2 : parseDecimal (some c2) = some (.fin w2)) :
    ∃ s2, importFromExcel
        [("returns",
          [[("asof", ca), ("fund", cf), ("monthly_return", c1)],
           [("asof", ca), ("fund", cf), ("monthly_return", c2)]])] s =
        .ok s2 ∧
      s2.returns.filter (fun x => decide (returnsKey x = (a, fid))) =
        [(a, fid, w2)] := by
  have hparse1 : returnsRowParse (fundMapOf s)
      [("asof", ca), ("fund", cf), ("monthly_return", c1)] =
      some (a, fid, .fin w1) := by
    unfold returnsRowParse rowStr Row.getCell
    simp [List.find?, hdate, hfund, hlookup, hv1, ha, hfid]
  have hparse2 : returnsRowParse (fundMapOf s)
      [("asof", ca), ("fund", cf), ("monthly_return", c2)] =
      some (a, fid, .fin w2) := by
    unfold returnsRowParse rowStr Row.getCell
    simp [List.find?, hdate, hfund, hlookup, hv2, ha, hfid]
  have hproc : procReturns
      [[("asof", ca), ("fund", cf), ("monthly_return", c1)],
       [("asof", ca), ("fund", cf), ("monthly_return", c2)]]
      (fundMapOf s) s =
      .ok { s with
        returns := orReplaceAll returnsKey s.returns
          [(a, fid, w1), (a, fid, w2)] } := by
    unfold procReturns
    rw [List.filterMap_cons, List.filterMap_cons, List.filterMap_nil,
      hparse1, hparse2]
    rfl
  refine ⟨_, by rw [importFromExcel_only_returns, hproc], ?_⟩
  show (orReplaceAll returnsKey s.returns
    [(a, fid, w1), (a, fid, w2)]).filter
      (fun x => decide (returnsKey x = (a, fid))) = [(a, fid, w2)]
  rw [orReplaceAll_closed]
  have hded : dedupLast returnsKey [(a, fid, w1), (a, fid, w2)] =
      [(a, fid, w2)] := by
    simp [dedupLast, keyMem, returnsKey]
  rw [hded, List.filter_append]
  have hnil : (s.returns.filter
      (fun x => !keyMem returnsKey (returnsKey x)
        [(a, fid, w1), (a, fid, w2)])).filter
      (fun x => decide (returnsKey x = (a, fid))) = [] := by
    rw [List.filter_filter, List.filter_eq_nil_iff]
    intro x hx
    by_cases hk : returnsKey x = (a, fid)
    · have hm : keyMem returnsKey (returnsKey x)
          [(a, fid, w1), (a, fid, w2)] = true := by
        rw [hk]
        simp [keyMem, returnsKey]
      simp [hm]
    · simp [hk]
  rw [hnil]
  simp [returnsKey]

/-- Witness for C7: two rows for ("2024-01-31", fund "F") in one returns
sheet; the store ends with exactly one row for that key, holding the
later row's value 101. -/
theorem c7_returns_upsert_last_wins_witness :
    ∃ s2, importFromExcel
        [("returns",
          [[("asof", dateCell "2024-01-31"), ("fund", strCell "F"),
            ("monthly_return", numCell 0)],
           [("asof", dateCell "2024-01-31"), ("fund", strCell "F"),
            ("monthly_return", numCell 101)]])] storeWithFundF =
        .ok s2 ∧
      s2.returns.filter
          (fun x => decide (returnsKey x = ("2024-01-31", 1))) =
        [("2024-01-31", 1, 101)] :=
  c7_returns_upsert_last_wins storeWithFundF "2024-01-31" "F" 1
    (dateCell "2024-01-31") (strCell "F") (numCell 0) (numCell 101) 0 101
    rfl (by decide) rfl rfl (by decide) rfl rfl

/-- C3 counterexample: a returns-sheet row referencing the unknown fund
name "Mystery" is silently dropped — the import leaves a fresh store
completely unchanged (no fund auto-created, no returns row written) —
contradicting the claim that the referenced entity is get-or-created and
the row written. -/
theorem c3_returns_unknown_fund_dropped :
    importFromExcel wbUnknownFund emptyStore = .ok emptyStore ∧
    emptyStore.funds = [] ∧ emptyStore.returns = [] :=
  ⟨rfl, rfl, rfl⟩

/-- C3 amended: the returns handler never creates funds or asset classes
(first conjunct) and drops any row whose fund name is not in the name→id
map (second conjunct); the target_allocations handler auto-creates an
unknown asset-class name, updates the map, and writes the row (third
conjunct). -/
theorem c3_amended_entity_resolution :
    (∀ (rows : List Row) (fm : List (String × Nat)) (s s2 : Store),
      procReturns rows fm s = .ok s2 →
      s2.funds = s.funds ∧ s2.assetClasses = s.assetClasses) ∧
    (∀ (rows : List Row) (fm : List (String × Nat)) (s : Store) (r : Row),
      lookupName fm (pyStrip (rowStr r "fund" "")) = none →
      procReturns (r :: rows) fm s = procReturns rows fm s) ∧
    (∀ (s : Store) (acm : List (String × Nat)) (ca cn cw : Cell)
      (a n : String) (w : Rat),
      parseDate (some ca) = a → a ≠ "" → pyStrip cn.strVal = n → n ≠ "" →
      parseDecimal (some cw) = some (.fin w) →
      lookupName acm n = none →
      s.assetClasses.find? (fun p => decide (p.2 = n)) = none →
      procTargetAllocations
          [[("asof", ca), ("asset_class", cn), ("weight", cw)]] acm s =
        .ok ({ s with
            assetClasses := s.assetClasses ++
              [(nextId (s.assetClasses.map Prod.fst), n)]
            targetAllocations := orReplaceAll taKey s.targetAllocations
              [(a, nextId (s.assetClasses.map Prod.fst), w)] },
          (n, nextId (s.assetClasses.map Prod.fst)) :: acm)) := by
  refine ⟨?_, ?_, ?_⟩
  · intro rows fm s s2 h
    simp only [procReturns] at h
    split at h
    · injection h with h2
      subst h2
      exact ⟨rfl, rfl⟩
    · split at h
      · exact absurd h (by simp)
      · injection h with h2
        subst h2
        exact ⟨rfl, rfl⟩
  · intro rows fm s r hlk
    have hp : returnsRowParse fm r = none := by
      simp only [returnsRowParse]
      rw [hlk]
    unfold procReturns
    rw [List.filterMap_cons, hp]
  · intro s acm ca cn cw a n w hda hane hn hnne hw hlk hfind
    have hcol : taCollect
        [[("asof", ca), ("asset_class", cn), ("weight", cw)]] acm s =
        ({ s with assetClasses := s.assetClasses ++
            [(nextId (s.assetClasses.map Prod.fst), n)] },
          (n, nextId (s.assetClasses.map Prod.fst)) :: acm,
          [(a, nextId (s.assetClasses.map Prod.fst), .fin w)]) := by
      unfold taCollect
      rw [List.foldl_cons, List.foldl_nil]
      simp only [Row.getCell, List.find?, String.reduceEq, decide_False,
        decide_True, Option.map_some', rowStr]
      rw [hw, hda, hn]
      simp only [hane, hnne, false_or, if_false, ite_false, or_self,
        or_false, false_and]
      simp only [hlk, getOrCreateAssetClass, hfind]
      simp [hane, hnne]
    unfold procTargetAllocations
    rw [hcol]
    rfl

/-- Witness for C3 amended: the unknown fund "Mystery" row is a no-op on
a fresh store, while an unknown asset class "NewAC" in a
target_allocations row is auto-created with id 1 and the row written. -/
theorem c3_amended_entity_resolution_witness :
    (procReturns [] [] emptyStore = .ok emptyStore →
      emptyStore.funds = emptyStore.funds ∧
      emptyStore.assetClasses = emptyStore.assetClasses) ∧
    procReturns
        [[("asof", dateCell "2024-01-31"), ("fund", strCell "Mystery"),
          ("monthly_return", numCell 0)]] [] emptyStore =
      procReturns [] ([] : List (String × Nat)) emptyStore ∧
    procTargetAllocations
        [[("asof", dateCell "2024-01-31"), ("asset_class", strCell "NewAC"),
          ("weight", numCell 0)]] [] emptyStore =
      .ok ({ emptyStore with
          assetClasses := [(1, "NewAC")]
          targetAllocations := orReplaceAll taKey []
            [("2024-01-31", 1, 0)] }, [("NewAC", 1)]) := by
  refine ⟨fun h => c3_amended_entity_resolution.1 [] [] emptyStore emptyStore h, ?_, ?_⟩
  · exact c3_amended_entity_resolution.2.1 [] [] emptyStore
      [("asof", dateCell "2024-01-31"), ("fund", strCell "Mystery"),
       ("monthly_return", numCell 0)] rfl
  · exact c3_amended_entity_resolution.2.2 emptyStore []
      (dateCell "2024-01-31") (strCell "NewAC") (numCell 0)
      "2024-01-31" "NewAC" 0 rfl (by decide) rfl (by decide) rfl rfl rfl

/-- C4 counterexample: a spending_policy row whose rate does not parse
is not dropped — the import writes the policy row with the substituted
default rate 0.045, contradicting the claim that such a row is silently
dropped and that no substituted default is ever written. -/
theorem c4_spending_policy_substitutes_rate :
    importFromExcel wbBadRate emptyStore =
      .ok { emptyStore with spendingPolicy := [(1, "P", 9 / 200, 2)] } :=
  rfl

/-- C4 amended: for the asset_classes, benchmarks, funds, returns,
contributions, target_allocations and inflation sheets, a row failing
the handler's parse gate (empty name, empty/unparseable date, fund or
asset-class gate, unparseable numeric) contributes nothing — processing
each sheet equals processing it with those rows filtered out, so the
remaining rows are still handled; the spending_policy sheet instead
substitutes defaults (the name 'default' for a falsy name cell, rate
0.045 for an unparseable rate and for a falsy — zero — rate, and
smoothing 3 for a falsy smoothing_years cell) and a truthy unparseable
smoothing_years raises, aborting the import. -/
theorem c4_amended_row_skip :
    (∀ (rows : List Row) (s : Store),
      procAssetClasses rows s =
        procAssetClasses
          (rows.filter (fun r => decide (pyStrip (rowStr r "name" "") ≠ ""))) s) ∧
    (∀ (rows : List Row) (s : Store),
      procBenchmarks rows s =
        procBenchmarks
          (rows.filter (fun r => decide (pyStrip (rowStr r "name" "") ≠ ""))) s) ∧
    (∀ (rows : List Row) (s : Store) (acm bmm : List (String × Nat)),
      procFunds rows s acm bmm =
        procFunds
          (rows.filter (fun r =>
            !(decide (pyStrip (rowStr r "name" "") = "") ||
              decide (pyStrip (rowStr r "asset_class" "") = "")))) s acm bmm) ∧
    (∀ (rows : List Row) (fm : List (String × Nat)) (s : Store),
      procReturns rows fm s =
        procReturns (rows.filter (fun r => (returnsRowParse fm r).isSome)) fm s) ∧
    (∀ (rows : List Row) (s : Store),
      procContributions rows s =
        procContributions (rows.filter (fun r => (contribRowParse r).isSome)) s) ∧
    (∀ (rows : List Row) (acm : List (String × Nat)) (s : Store),
      procTargetAllocations rows acm s =
        procTargetAllocations
          (rows.filter (fun r =>
            !(decide (parseDecimal (r.getCell "weight") = none) ||
              (decide (parseDate (r.getCell "asof") = "") ||
               decide (pyStrip (rowStr r "asset_class" "") = ""))))) acm s) ∧
    (∀ (rows : List Row) (s : Store),
      procInflation rows s =
        procInflation (rows.filter (fun r => (inflationRowParse r).isSome)) s) ∧
    (∀ (s : Store) (cn cr cs : Cell) (k : Int),
      cn.truthy = true → parseDecimal (some cr) = none →
      cs.truthy = true → cs.intVal = some k →
      procSpendingPolicy
          [[("name", cn), ("rate", cr), ("smoothing_years", cs)]] s =
        .ok { s with spendingPolicy :=
          (s.spendingPolicy.filter
            (fun p => !(decide (p.1 = 1) ||
              decide (p.2.1 = pyStrip cn.strVal)))) ++
          [(1, pyStrip cn.strVal, 9 / 200, k)] }) ∧
    (∀ (s : Store) (cn cr cs : Cell) (q : Rat) (k : Int),
      cn.truthy = false → parseDecimal (some cr) = some (.fin q) → q ≠ 0 →
      cs.truthy = true → cs.intVal = some k →
      procSpendingPolicy
          [[("name", cn), ("rate", cr), ("smoothing_years", cs)]] s =
        .ok { s with spendingPolicy :=
          (s.spendingPolicy.filter
            (fun p => !(decide (p.1 = 1) ||
              decide (p.2.1 = "default")))) ++
          [(1, "default", q, k)] }) ∧
    (∀ (s : Store) (cn cr cs : Cell) (k : Int),
      cn.truthy = true → parseDecimal (some cr) = some (.fin 0) →
      cs.truthy = true → cs.intVal = some k →
      procSpendingPolicy
          [[("name", cn), ("rate", cr), ("smoothing_years", cs)]] s =
        .ok { s with spendingPolicy :=
          (s.spendingPolicy.filter
            (fun p => !(decide (p.1 = 1) ||
              decide (p.2.1 = pyStrip cn.strVal)))) ++
          [(1, pyStrip cn.strVal, 9 / 200, k)] }) ∧
    (∀ (s : Store) (cn cr cs : Cell),
      cn.truthy = true → parseDecimal (some cr) = none → cs.truthy = false →
      procSpendingPolicy
          [[("name", cn), ("rate", cr), ("smoothing_years", cs)]] s =
        .ok { s with spendingPolicy :=
          (s.spendingPolicy.filter
            (fun p => !(decide (p.1 = 1) ||
              decide (p.2.1 = pyStrip cn.strVal)))) ++
          [(1, pyStrip cn.strVal, 9 / 200, 3)] }) ∧
    (∀ (s : Store) (r : Row) (cs : Cell),
      r.getCell "smoothing_years" = some cs → cs.truthy = true →
      cs.intVal = none → procSpendingPolicy [r] s = .error ()) := by
  refine ⟨?_, ?_, ?_, ?_, ?_, ?_, ?_, ?_, ?_, ?_, ?_, ?_⟩
  · intro rows s
    refine (foldl_filter_skip _ _ ?_ rows s).symm
    intro s r hp
    have hp2 : pyStrip (rowStr r "name" "") = "" := by
      simpa using hp
    simp [hp2]
  · intro rows s
    refine (foldl_filter_skip _ _ ?_ rows s).symm
    intro s r hp
    have hp2 : pyStrip (rowStr r "name" "") = "" := by
      simpa using hp
    simp [hp2]
  · intro rows s acm bmm
    refine (foldl_filter_skip _ _ ?_ rows (Except.ok (s, acm, bmm))).symm
    intro st r hp
    have hp2 : pyStrip (rowStr r "name" "") = "" ∨
        pyStrip (rowStr r "asset_class" "") = "" := by
      by_cases h1 : pyStrip (rowStr r "name" "") = ""
      · exact Or.inl h1
      · by_cases h2 : pyStrip (rowStr r "asset_class" "") = ""
        · exact Or.inr h2
        · simp [h1, h2] at hp
    cases st with
    | error e => rfl
    | ok trip =>
      obtain ⟨s1, acm1, bmm1⟩ := trip
      show exStep fundsStep (.ok (s1, acm1, bmm1)) r = .ok (s1, acm1, bmm1)
      simp only [exStep]
      unfold fundsStep
      dsimp only
      rw [if_pos hp2]
  · intro rows fm s
    simp only [procReturns]
    rw [filterMap_filter_isSome]
  · intro rows s
    simp only [procContributions]
    rw [filterMap_filter_isSome]
  · intro rows acm s
    have hcol : taCollect
        (rows.filter (fun r =>
          !(decide (parseDecimal (r.getCell "weight") = none) ||
            (decide (parseDate (r.getCell "asof") = "") ||
             decide (pyStrip (rowStr r "asset_class" "") = ""))))) acm s =
        taCollect rows acm s := by
      unfold taCollect
      refine foldl_filter_skip _ _ ?_ rows (s, acm, [])
      intro st r hp
      by_cases hw : parseDecimal (r.getCell "weight") = none
      · simp [hw]
      · have hp2 : parseDate (r.getCell "asof") = "" ∨
            pyStrip (rowStr r "asset_class" "") = "" := by
          by_cases h1 : parseDate (r.getCell "asof") = ""
          · exact Or.inl h1
          · by_cases h2 : pyStrip (rowStr r "asset_class" "") = ""
            · exact Or.inr h2
            · simp [hw, h1, h2] at hp
        rcases Option.ne_none_iff_exists.mp hw with ⟨wv, hwv⟩
        simp [← hwv, hp2]
    unfold procTargetAllocations
    rw [hcol]
  · intro rows s
    simp only [procInflation]
    rw [filterMap_filter_isSome]
  · intro s cn cr cs k hname hrate htr hiv
    show exStep spendingStep (.ok s)
      [("name", cn), ("rate", cr), ("smoothing_years", cs)] = _
    simp only [exStep]
    unfold spendingStep
    simp only [Row.getCell, List.find?, String.reduceEq, decide_False,
      decide_True, Option.map_some', hrate, hname, htr, hiv, if_true]
    rfl
  · intro s cn cr cs q k hname hrate hq htr hiv
    show exStep spendingStep (.ok s)
      [("name", cn), ("rate", cr), ("smoothing_years", cs)] = _
    simp only [exStep]
    unfold spendingStep
    simp only [Row.getCell, List.find?, String.reduceEq, decide_False,
      decide_True, Option.map_some', hrate, hname, htr, hiv,
      Bool.false_eq_true, if_false, if_true]
    rw [show Flt.pyTruthy (Flt.fin q) = true from by
      simp [Flt.pyTruthy, hq]]
    rfl
  · intro s cn cr cs k hname hrate htr hiv
    show exStep spendingStep (.ok s)
      [("name", cn), ("rate", cr), ("smoothing_years", cs)] = _
    simp only [exStep]
    unfold spendingStep
    simp only [Row.getCell, List.find?, String.reduceEq, decide_False,
      decide_True, Option.map_some', hrate, hname, htr, hiv, if_true]
    rfl
  · intro s cn cr cs hname hrate hstr
    show exStep spendingStep (.ok s)
      [("name", cn), ("rate", cr), ("smoothing_years", cs)] = _
    simp only [exStep]
    unfold spendingStep
    simp only [Row.getCell, List.find?, String.reduceEq, decide_False,
      decide_True, Option.map_some', hrate, hname, hstr,
      Bool.false_eq_true, if_false, if_true]
    rfl
  · intro s r cs hcell htr hiv
    show exStep spendingStep (.ok s) r = _
    simp only [exStep]
    unfold spendingStep
    rw [hcell]
    simp [htr, hiv]

/-- Witness for C4 amended: an unknown-fund returns row is filtered to
a no-op; a spending_policy row with unparseable rate writes the 0.045
default; a falsy (empty-string) name cell writes the name 'default'; a
falsy (zero) rate writes 0.045; a falsy (zero) smoothing_years cell
writes 3; a truthy unparseable smoothing_years aborts. -/
theorem c4_amended_row_skip_witness :
    procReturns
        [[("asof", dateCell "2024-01-31"), ("fund", strCell "Mystery"),
          ("monthly_return", numCell 0)]] [] emptyStore =
      procReturns
        ([[("asof", dateCell "2024-01-31"), ("fund", strCell "Mystery"),
           ("monthly_return", numCell 0)]].filter
          (fun r => (returnsRowParse [] r).isSome)) [] emptyStore ∧
    procSpendingPolicy
        [[("name", strCell "P"), ("rate", strCell "abc"),
          ("smoothing_years", numCell 2)]] emptyStore =
      .ok { emptyStore with spendingPolicy :=
        (emptyStore.spendingPolicy.filter
          (fun p => !(decide (p.1 = 1) ||
            decide (p.2.1 = pyStrip (strCell "P").strVal)))) ++
        [(1, pyStrip (strCell "P").strVal, 9 / 200, 2)] } ∧
    procSpendingPolicy
        [[("name", strCell ""), ("rate", numCell 101),
          ("smoothing_years", numCell 2)]] emptyStore =
      .ok { emptyStore with spendingPolicy :=
        (emptyStore.spendingPolicy.filter
          (fun p => !(decide (p.1 = 1) ||
            decide (p.2.1 = "default")))) ++
        [(1, "default", 101, 2)] } ∧
    procSpendingPolicy
        [[("name", strCell "P"), ("rate", numCell 0),
          ("smoothing_years", numCell 2)]] emptyStore =
      .ok { emptyStore with spendingPolicy :=
        (emptyStore.spendingPolicy.filter
          (fun p => !(decide (p.1 = 1) ||
            decide (p.2.1 = pyStrip (strCell "P").strVal)))) ++
        [(1, pyStrip (strCell "P").strVal, 9 / 200, 2)] } ∧
    procSpendingPolicy
        [[("name", strCell "P"), ("rate", strCell "abc"),
          ("smoothing_years", numCell 0)]] emptyStore =
      .ok { emptyStore with spendingPolicy :=
        (emptyStore.spendingPolicy.filter
          (fun p => !(decide (p.1 = 1) ||
            decide (p.2.1 = pyStrip (strCell "P").strVal)))) ++
        [(1, pyStrip (strCell "P").strVal, 9 / 200, 3)] } ∧
    procSpendingPolicy
        [[("smoothing_years", strCell "three")]] emptyStore = .error () := by
  refine ⟨?_, ?_, ?_, ?_, ?_, ?_⟩
  · exact c4_amended_row_skip.2.2.2.1
      [[("asof", dateCell "2024-01-31"), ("fund", strCell "Mystery"),
        ("monthly_return", numCell 0)]] [] emptyStore
  · exact c4_amended_row_skip.2.2.2.2.2.2.2.1 emptyStore (strCell "P")
      (strCell "abc") (numCell 2) 2 rfl rfl rfl rfl
  · exact c4_amended_row_skip.2.2.2.2.2.2.2.2.1 emptyStore (strCell "")
      (numCell 101) (numCell 2) 101 2 rfl rfl (by decide) rfl rfl
  · exact c4_amended_row_skip.2.2.2.2.2.2.2.2.2.1 emptyStore (strCell "P")
      (numCell 0) (numCell 2) 2 rfl rfl rfl rfl
  · exact c4_amended_row_skip.2.2.2.2.2.2.2.2.2.2.1 emptyStore
      (strCell "P") (strCell "abc") (numCell 0) rfl rfl rfl
  · exact c4_amended_row_skip.2.2.2.2.2.2.2.2.2.2.2 emptyStore
      [("smoothing_years", strCell "three")] (strCell "three") rfl rfl rfl
